import Mathlib

/- Verification of the x402 payment-gateway core: a shallow embedding of
   the per-request payment pipeline (src/middleware/x402.js), the route and
   network registry (src/config/routes.js) and the Redis-backed replay,
   idempotency and credit store (src/utils/redis.js).  External effects
   (EIP-712 recovery, RPC balance reads, chain writes, facilitator HTTP,
   base64 and JSON codecs, SHA-256) are modelled as oracle functions carried
   in an environment record; everything the middleware itself computes is
   embedded as executable Lean functions. -/

namespace X402

/- ── Data model: tokens, networks, routes (src/config/routes.js) ───── -/

structure Token where
  address : String
  name : String
  version : Option String
  decimals : Nat
deriving DecidableEq

structure Facilitator where
  url : String
  apiKeyEnv : String
  networkName : Option String
  facilitatorContract : Option String
  x402Version : Option Nat
deriving DecidableEq

structure Network where
  vm : String
  caip2 : String
  chainId : Option Nat
  rpcEnvVar : String
  token : Token
  facilitator : Option Facilitator
deriving DecidableEq

structure RouteConfig where
  priceAtomic : Nat
  price : String
  payTo : Option String
  payToSol : Option String
  description : String
  mimeType : String
  resource : Option String
  creditOnStatusCodes : Option (List Nat)
  maxCreditsPerPayer : Option Nat
  creditTtl : Option Nat
deriving DecidableEq

structure CreditConfig where
  creditOnStatusCodes : List Nat
  maxCreditsPerPayer : Nat
  creditTtl : Nat
deriving DecidableEq

def CREDIT_DEFAULTS : CreditConfig :=
  { creditOnStatusCodes := [500, 502, 503, 504], maxCreditsPerPayer := 10, creditTtl := 86400 }

def getCreditConfig (rc : RouteConfig) : CreditConfig :=
  { creditOnStatusCodes := rc.creditOnStatusCodes.getD CREDIT_DEFAULTS.creditOnStatusCodes,
    maxCreditsPerPayer := rc.maxCreditsPerPayer.getD CREDIT_DEFAULTS.maxCreditsPerPayer,
    creditTtl := rc.creditTtl.getD CREDIT_DEFAULTS.creditTtl }

/- ── Payment envelope (decoded base64 JSON header) ─────────────────── -/

structure Authorization where
  fromAddr : String
  toAddr : String
  value : Nat
  validAfter : Nat
  validBefore : Nat
  nonce : String
deriving DecidableEq

structure Extensions where
  paymentId : Option String
deriving DecidableEq

structure PayloadData where
  authorization : Option Authorization
  signature : Option String
  transaction : Option String
  extensions : Option Extensions
deriving DecidableEq

structure PaymentPayload where
  x402Version : Option Nat
  scheme : String
  network : String
  payload : PayloadData
  extensions : Option Extensions
deriving DecidableEq

/- ── Store records (src/utils/redis.js) ────────────────────────────── -/

structure NonceRecord where
  status : Option String
  timestamp : Nat
  network : String
  payer : String
  route : String
  vm : String
  txHash : Option String
  blockNumber : Option Nat
  ttl : Nat
deriving DecidableEq

structure PaymentResponseData where
  success : Bool
  txHash : String
  network : String
  blockNumber : Option Nat
  facilitator : Option String
deriving DecidableEq

structure CachedResponse where
  paymentResponseHeader : Option String
  settlement : Option PaymentResponseData
deriving DecidableEq

structure IdemRecord where
  timestamp : Nat
  response : Option CachedResponse
  ttl : Nat
deriving DecidableEq

structure CreditEntry where
  count : Int
  ttl : Nat
deriving DecidableEq

structure Store where
  nonces : String → Option NonceRecord
  idem : String → Option IdemRecord
  credits : String → Option CreditEntry

def setFn {α : Type} (f : String → Option α) (k : String) (v : Option α) :
    String → Option α :=
  fun k2 => if k2 = k then v else f k2

/- ASCII lower-casing, modelling String.prototype.toLowerCase as used for
   case-insensitive address comparison and credit keys. -/
def lowerString (s : String) : String := ⟨s.data.map Char.toLower⟩

instance instDecEqExcept {ε α : Type} [DecidableEq ε] [DecidableEq α] :
    DecidableEq (Except ε α) := fun a b =>
  match a, b with
  | .error x, .error y =>
    if h : x = y then .isTrue (congrArg Except.error h)
    else .isFalse (fun hh => h (by injection hh))
  | .ok x, .ok y =>
    if h : x = y then .isTrue (congrArg Except.ok h)
    else .isFalse (fun hh => h (by injection hh))
  | .error _, .ok _ => .isFalse (fun hh => by injection hh)
  | .ok _, .error _ => .isFalse (fun hh => by injection hh)

/- ── Nonce operations (redis.js: replay protection) ────────────────── -/

structure NonceMeta where
  network : String
  payer : String
  route : String
  vm : String
deriving DecidableEq

def getNonce (st : Store) (nonce : String) : Option NonceRecord :=
  st.nonces ("x402:nonce:" ++ nonce)

def setNoncePending (now : Nat) (st : Store) (nonce : String) (meta : NonceMeta) :
    Bool × Store :=
  match st.nonces ("x402:nonce:" ++ nonce) with
  | some _ => (false, st)
  | none =>
    let recPending : NonceRecord :=
      { status := some "pending", timestamp := now, network := meta.network,
        payer := meta.payer, route := meta.route, vm := meta.vm,
        txHash := none, blockNumber := none, ttl := 3600 }
    (true, { st with nonces := setFn st.nonces ("x402:nonce:" ++ nonce) (some recPending) })

structure SettlementData where
  txHash : Option String
  network : String
  blockNumber : Option Nat
  payer : String
  route : String
  vm : String
deriving DecidableEq

def setNonceConfirmed (now : Nat) (st : Store) (nonce : String) (data : SettlementData) :
    Store :=
  let recConfirmed : NonceRecord :=
    { status := some "confirmed", timestamp := now, network := data.network,
      payer := data.payer, route := data.route, vm := data.vm,
      txHash := data.txHash, blockNumber := data.blockNumber, ttl := 604800 }
  { st with nonces := setFn st.nonces ("x402:nonce:" ++ nonce) (some recConfirmed) }

def deleteNonce (st : Store) (nonce : String) : Store :=
  { st with nonces := setFn st.nonces ("x402:nonce:" ++ nonce) none }

/- ── Idempotency operations ────────────────────────────────────────── -/

def getIdempotencyCache (st : Store) (paymentId : String) : Option IdemRecord :=
  st.idem ("x402:idempotency:" ++ paymentId)

def setIdempotencyCache (now : Nat) (st : Store) (paymentId : String)
    (responseData : CachedResponse) : Store :=
  let recIdem : IdemRecord := { timestamp := now, response := some responseData, ttl := 3600 }
  { st with idem := setFn st.idem ("x402:idempotency:" ++ paymentId) (some recIdem) }

/- ── Credit operations (Lua scripts, server-side atomic) ───────────── -/

def creditKey (payerAddress routeKey : String) : String :=
  "x402:credit:" ++ lowerString payerAddress ++ ":" ++ routeKey

def getCreditCount (st : Store) (payerAddress routeKey : String) : Int :=
  match st.credits (creditKey payerAddress routeKey) with
  | some e => e.count
  | none => 0

/- Lua body of decrementCredit: read-or-zero, decrement only when positive,
   report whether a credit was consumed. -/
def decrementCreditScript (entry : Option CreditEntry) : Bool × Option CreditEntry :=
  let count : Int := (entry.map (fun e => e.count)).getD 0
  if 0 < count then
    (true, entry.map (fun e => { e with count := e.count - 1 }))
  else
    (false, entry)

/- Lua body of incrementCredit: increment only below the cap (INCR creates
   an absent key at 1), then EXPIRE refreshes the TTL whenever the key
   exists; return the resulting count. -/
def incrementCreditScript (maxCredits ttlSeconds : Nat) (entry : Option CreditEntry) :
    Int × Option CreditEntry :=
  let count : Int := (entry.map (fun e => e.count)).getD 0
  let incremented : Int × Option CreditEntry :=
    if count < (maxCredits : Int) then
      match entry with
      | some e => (e.count + 1, some { e with count := e.count + 1 })
      | none => (1, some { count := 1, ttl := 0 })
    else (count, entry)
  (incremented.1, incremented.2.map (fun e => { e with ttl := ttlSeconds }))

def decrementCredit (st : Store) (payerAddress routeKey : String) : Bool × Store :=
  let key := creditKey payerAddress routeKey
  let r := decrementCreditScript (st.credits key)
  (r.1, { st with credits := setFn st.credits key r.2 })

def incrementCredit (st : Store) (payerAddress routeKey : String)
    (maxCredits ttlSeconds : Nat) : Int × Store :=
  let key := creditKey payerAddress routeKey
  let r := incrementCreditScript maxCredits ttlSeconds (st.credits key)
  (r.1, { st with credits := setFn st.credits key r.2 })

/- ── Amount scaling (repeated verbatim at every verify, settle and
      challenge site in x402.js) ──────────────────────────────────────── -/

def requiredAmountCode (decimals priceAtomic : Nat) : Nat :=
  let decimalDiff : Int := (decimals : Int) - 6
  if 0 < decimalDiff then priceAtomic * 10 ^ decimalDiff.toNat else priceAtomic

/- ── Payment-identifier extraction (x402.js extractPaymentIdentifier) ─ -/

def isPaymentIdChar (c : Char) : Bool :=
  (c.isAlpha || c.isDigit) || (c = '_' || c = '-')

def validPaymentId (id : String) : Bool :=
  decide (16 ≤ id.length) && decide (id.length ≤ 128) && id.toList.all isPaymentIdChar

def extractPaymentIdentifier (pp : PaymentPayload) : Option String :=
  match pp.extensions.orElse (fun _ => pp.payload.extensions) with
  | none => none
  | some ext =>
    match ext.paymentId with
    | some id => if validPaymentId id then some id else none
    | none => none

/- ── Verifier result and external oracles ──────────────────────────── -/

structure Eip712Domain where
  name : String
  version : Option String
  chainId : Option Nat
  verifyingContract : String
deriving DecidableEq

/- Outcome of the viem verifyTypedData call: a boolean, or a thrown error
   caught by the verifier's try block. -/
inductive SigResult where
  | ok (valid : Bool)
  | err (message : String)
deriving DecidableEq

structure VerifyResult where
  valid : Bool
  reason : Option String
  payer : Option String
deriving DecidableEq

/- Outcome of checkBalance: the source treats a missing client or an RPC
   error as sufficient (fail open), so only the final verdict and the two
   strings used in the rejection reason are visible to the verifier. -/
structure BalanceResult where
  sufficient : Bool
  balance : String
  required : String
deriving DecidableEq

/- ── Local EVM verifier (x402.js verifyPaymentEvm) ──────────────────── -/

/- Except.error models the TypeError thrown when the envelope carries no
   authorization object (the middleware has no catch around verification,
   so the framework turns it into a 500). -/
def verifyPaymentEvm (networks : String → Option Network) (now : Nat)
    (sigVerify : String → Eip712Domain → Authorization → Option String → SigResult)
    (balance : Network → String → Nat → BalanceResult)
    (pp : PaymentPayload) (routeConfig : RouteConfig)
    (nonces : String → Option NonceRecord) : Except Unit VerifyResult :=
  match networks pp.network with
  | none =>
    .ok { valid := false, reason := some ("Unsupported network: " ++ pp.network), payer := none }
  | some network =>
    if pp.scheme ≠ "exact" then
      .ok { valid := false, reason := some ("Unsupported scheme: " ++ pp.scheme), payer := none }
    else
      match pp.payload.authorization with
      | none => .error ()
      | some authorization =>
        let requiredAmount := requiredAmountCode network.token.decimals routeConfig.priceAtomic
        if authorization.value < requiredAmount then
          .ok { valid := false,
                reason := some ("Insufficient payment: got " ++ toString authorization.value
                  ++ ", need " ++ toString requiredAmount),
                payer := none }
        else
          match routeConfig.payTo with
          | none => .ok { valid := false, reason := some "No payTo address configured", payer := none }
          | some payToRaw =>
            let payTo := lowerString payToRaw
            if lowerString authorization.toAddr ≠ payTo then
              .ok { valid := false, reason := some ("Wrong recipient: expected " ++ payTo),
                    payer := none }
            else if now < authorization.validAfter then
              .ok { valid := false, reason := some "Payment not yet valid", payer := none }
            else if authorization.validBefore < now then
              .ok { valid := false, reason := some "Payment expired", payer := none }
            else
              match nonces authorization.nonce with
              | some existing =>
                .ok { valid := false,
                      reason := some ("Nonce already used ("
                        ++ existing.status.getD "unknown" ++ ")"),
                      payer := none }
              | none =>
                let domain : Eip712Domain :=
                  { name := network.token.name, version := network.token.version,
                    chainId := network.chainId, verifyingContract := network.token.address }
                match sigVerify authorization.fromAddr domain authorization pp.payload.signature with
                | .err m =>
                  .ok { valid := false,
                        reason := some ("Signature verification failed: " ++ m), payer := none }
                | .ok false =>
                  .ok { valid := false, reason := some "Signature does not match sender",
                        payer := none }
                | .ok true =>
                  let bc := balance network authorization.fromAddr requiredAmount
                  if bc.sufficient then .ok { valid := true, reason := none, payer := none }
                  else
                    .ok { valid := false,
                          reason := some ("Insufficient balance: has " ++ bc.balance
                            ++ ", needs " ++ bc.required),
                          payer := none }

/- ── Request bodies built for the SVM facilitator library ──────────── -/

structure SvmRequirements where
  scheme : String
  network : String
  amount : String
  asset : String
  payTo : String
  feePayer : String
deriving DecidableEq

structure SvmBody where
  payload : PayloadData
  acceptedScheme : String
  acceptedNetwork : String
  requirements : SvmRequirements
deriving DecidableEq

def svmBody (pp : PaymentPayload) (routeConfig : RouteConfig) (network : Network)
    (feePayerAddress payTo : String) : SvmBody :=
  { payload := pp.payload, acceptedScheme := "exact", acceptedNetwork := pp.network,
    requirements :=
      { scheme := "exact", network := pp.network,
        amount := toString (requiredAmountCode network.token.decimals routeConfig.priceAtomic),
        asset := network.token.address, payTo := payTo, feePayer := feePayerAddress } }

/- ── Request bodies POSTed to an external EVM facilitator ──────────── -/

structure PaymentRequirements where
  scheme : String
  network : String
  maxAmountRequired : String
  maxTimeoutSeconds : Nat
  payTo : Option String
  asset : String
  resource : String
  description : String
  mimeType : String
  amount : String
  recipient : Option String
deriving DecidableEq

structure FacilitatorBody where
  x402Version : Nat
  scheme : String
  network : String
  payload : PayloadData
  paymentRequirements : PaymentRequirements
deriving DecidableEq

def facilitatorBody (pp : PaymentPayload) (routeConfig : RouteConfig) (network : Network)
    (fac : Facilitator) : FacilitatorBody :=
  let amountRequired := toString (requiredAmountCode network.token.decimals routeConfig.priceAtomic)
  let facilitatorNetwork := fac.networkName.getD pp.network
  let facilitatorPayTo := fac.facilitatorContract.orElse (fun _ => routeConfig.payTo)
  { x402Version := (fac.x402Version.orElse (fun _ => pp.x402Version)).getD 2,
    scheme := pp.scheme, network := facilitatorNetwork, payload := pp.payload,
    paymentRequirements :=
      { scheme := "exact", network := facilitatorNetwork, maxAmountRequired := amountRequired,
        maxTimeoutSeconds := 3600, payTo := facilitatorPayTo, asset := network.token.address,
        resource := routeConfig.resource.getD "", description := routeConfig.description,
        mimeType := routeConfig.mimeType, amount := amountRequired,
        recipient := facilitatorPayTo } }

/- ── Settlement results ────────────────────────────────────────────── -/

structure Settlement where
  txHash : String
  network : String
  blockNumber : Option Nat
  payer : Option String
  facilitator : Option String
deriving DecidableEq

structure EvmTxResult where
  txHash : String
  blockNumber : Nat
deriving DecidableEq

structure FacSettleResponse where
  transaction : String
  network : Option String
deriving DecidableEq

structure SvmSettleResponse where
  transaction : String
  network : Option String
  payer : Option String
deriving DecidableEq

/- ── Environment: registry view plus every external effect ─────────── -/

structure Env where
  networkList : List (String × Network)
  routeConfigs : String → Option RouteConfig
  envVars : String → Option String
  now : Nat
  sigVerify : String → Eip712Domain → Authorization → Option String → SigResult
  balance : Network → String → Nat → BalanceResult
  svmFeePayer : Option String
  svmVerify : SvmBody → VerifyResult
  facilitatorVerify : FacilitatorBody → VerifyResult
  chainSettle : Network → Authorization → String → Except String EvmTxResult
  facilitatorSettle : FacilitatorBody → Except String FacSettleResponse
  svmSettle : SvmBody → Except String SvmSettleResponse
  sha256hex : String → String
  creditEnabled : Bool
  encodeReceipt : PaymentResponseData → String
  decodeHeader : String → Option PaymentPayload

def lookupNetwork (l : List (String × Network)) (k : String) : Option Network :=
  (l.find? (fun p => p.1 = k)).map (fun p => p.2)

def isSvmNetwork (network : Network) : Bool := network.vm == "svm"

/- ── Remaining verifier variants ───────────────────────────────────── -/

/- SVM verify: a failed facilitator initialization is thrown outside any
   try block, so it surfaces as Except.error; the library verify call is
   wrapped in try and collapses into the svmVerify oracle. -/
def verifyPaymentSvm (env : Env) (pp : PaymentPayload) (routeConfig : RouteConfig)
    (network : Network) : Except Unit VerifyResult :=
  match env.svmFeePayer with
  | none => .error ()
  | some feePayerAddress =>
    .ok (match routeConfig.payToSol with
      | none => { valid := false, reason := some "No Solana payTo address configured",
                  payer := none }
      | some payTo => env.svmVerify (svmBody pp routeConfig network feePayerAddress payTo))

/- External-facilitator EVM verify: everything after building the body is
   inside try/catch, so the HTTP exchange collapses into facilitatorVerify. -/
def verifyPaymentViaFacilitator (env : Env) (pp : PaymentPayload) (routeConfig : RouteConfig)
    (network : Network) (fac : Facilitator) : VerifyResult :=
  match env.envVars fac.apiKeyEnv with
  | none =>
    { valid := false, reason := some ("No API key for facilitator (env: " ++ fac.apiKeyEnv ++ ")"),
      payer := none }
  | some _ => env.facilitatorVerify (facilitatorBody pp routeConfig network fac)

/- ── Settlement variants ───────────────────────────────────────────── -/

def settlePaymentEvm (env : Env) (pp : PaymentPayload) : Except String Settlement :=
  match lookupNetwork env.networkList pp.network with
  | none => .error "Cannot read properties of undefined"
  | some network =>
    match env.envVars network.rpcEnvVar with
    | none => .error ("No RPC URL for " ++ pp.network ++ " (env: " ++ network.rpcEnvVar ++ ")")
    | some _ =>
      match pp.payload.authorization, pp.payload.signature with
      | some authorization, some signature =>
        match env.chainSettle network authorization signature with
        | .error m => .error m
        | .ok tx =>
          .ok { txHash := tx.txHash, network := pp.network, blockNumber := some tx.blockNumber,
                payer := none, facilitator := none }
      | _, _ => .error "Invalid payment payload"

def settlePaymentViaFacilitator (env : Env) (pp : PaymentPayload) (routeConfig : RouteConfig)
    (network : Network) (fac : Facilitator) : Except String Settlement :=
  match env.facilitatorSettle (facilitatorBody pp routeConfig network fac) with
  | .error m => .error m
  | .ok data =>
    .ok { txHash := data.transaction, network := data.network.getD pp.network,
          blockNumber := none, payer := none, facilitator := some fac.url }

def settlePaymentSvm (env : Env) (pp : PaymentPayload) (routeConfig : RouteConfig)
    (network : Network) : Except String Settlement :=
  match env.svmFeePayer with
  | none => .error "SOLANA_FACILITATOR_PRIVATE_KEY not configured"
  | some feePayerAddress =>
    match routeConfig.payToSol with
    | none => .error "No Solana payTo address configured"
    | some payTo =>
      match env.svmSettle (svmBody pp routeConfig network feePayerAddress payTo) with
      | .error m => .error m
      | .ok r =>
        .ok { txHash := r.transaction, network := r.network.getD pp.network,
              blockNumber := none, payer := r.payer, facilitator := none }

/- ── 402 challenge builder (x402.js buildPaymentRequired) ──────────── -/

structure AcceptEntry where
  scheme : String
  network : String
  maxAmountRequired : String
  amount : String
  maxTimeoutSeconds : Nat
  resource : String
  description : String
  mimeType : String
  payTo : Option String
  asset : String
  feePayer : Option String
  extraName : Option String
  extraVersion : Option String
deriving DecidableEq

/- One iteration of the accepts loop: SVM entries are skipped when the
   route has no Solana payTo or no fee payer is available; EVM entries are
   always pushed, with the facilitator contract taking precedence over the
   route payTo. -/
def acceptFor (routeConfig : RouteConfig) (resource : String)
    (svmFeePayerAddress : Option String) (network : Network) : Option AcceptEntry :=
  let amountRequired := toString (requiredAmountCode network.token.decimals routeConfig.priceAtomic)
  if isSvmNetwork network then
    match routeConfig.payToSol, svmFeePayerAddress with
    | some payTo, some feePayer =>
      some { scheme := "exact", network := network.caip2, maxAmountRequired := amountRequired,
             amount := amountRequired, maxTimeoutSeconds := 3600, resource := resource,
             description := routeConfig.description, mimeType := routeConfig.mimeType,
             payTo := some payTo, asset := network.token.address,
             feePayer := some feePayer, extraName := none, extraVersion := none }
    | _, _ => none
  else
    let effectivePayTo :=
      (network.facilitator.bind (fun f => f.facilitatorContract)).orElse
        (fun _ => routeConfig.payTo)
    some { scheme := "exact", network := network.caip2, maxAmountRequired := amountRequired,
           amount := amountRequired, maxTimeoutSeconds := 3600, resource := resource,
           description := routeConfig.description, mimeType := routeConfig.mimeType,
           payTo := effectivePayTo, asset := network.token.address,
           feePayer := none, extraName := some network.token.name,
           extraVersion := network.token.version }

def svmFeePayerOf (env : Env) : Option String :=
  if env.networkList.any (fun p => p.2.vm == "svm") then env.svmFeePayer else none

def buildPaymentRequired (env : Env) (routeConfig : RouteConfig) (resource : String) :
    List AcceptEntry :=
  env.networkList.filterMap (fun p => acceptFor routeConfig resource (svmFeePayerOf env) p.2)

/- ── Pipeline orchestrator (x402.js x402PaymentMiddleware) ─────────── -/

/- Observable effects of one middleware invocation, in execution order. -/
inductive Event where
  | idemLookup (paymentId : String) (hit : Bool)
  | resolveNetwork (network : String) (found : Bool)
  | verify (path : String) (valid : Bool)
  | creditRead (key : String) (count : Int)
  | creditConsume (key : String) (consumed : Bool)
  | nonceReserve (key : String) (acquired : Bool)
  | settleOk (txHash : String)
  | settleFail (message : String)
  | nonceConfirm (key : String)
  | nonceDelete (key : String)
  | idemWrite (paymentId : String)
deriving DecidableEq

inductive Outcome where
  | respond (status : Nat) (error : String) (reason : Option String)
  | proceed
  | serverError
deriving DecidableEq

/- The res.on finish callback registered after a settlement: increment the
   payer's credit when the backend status is creditworthy. -/
structure CreditPlan where
  payer : String
  routeKey : String
  codes : List Nat
  cap : Nat
  ttl : Nat
deriving DecidableEq

structure PipelineResult where
  outcome : Outcome
  paymentResponse : Option String
  creditHeader : Bool
  challenge : Option (List AcceptEntry)
  store : Store
  events : List Event
  creditPlan : Option CreditPlan
  didSettle : Bool
  creditConsumed : Bool

def prependEvents (evs : List Event) (r : PipelineResult) : PipelineResult :=
  { r with events := evs ++ r.events }

structure Request where
  paymentHeader : Option String
  resourceUrl : String
  xPayerHeader : Option String
  otherHeaders : List (String × String)

def pathLabel (network : Network) : String :=
  if isSvmNetwork network then "SVM"
  else if network.facilitator.isSome then "facilitator" else "EVM"

def dispatchVerify (env : Env) (st : Store) (pp : PaymentPayload)
    (routeConfig enriched : RouteConfig) (network : Network) : Except Unit VerifyResult :=
  if isSvmNetwork network then verifyPaymentSvm env pp enriched network
  else
    match network.facilitator with
    | some fac => .ok (verifyPaymentViaFacilitator env pp enriched network fac)
    | none =>
      verifyPaymentEvm (lookupNetwork env.networkList) env.now env.sigVerify env.balance
        pp routeConfig (getNonce st)

/- Nonce key derivation: the SVM path hashes the transaction blob, the
   local EVM path takes the authorization nonce, and the facilitator EVM
   path derives none at all. -/
def pipelineNonceKey (env : Env) (pp : PaymentPayload) (network : Network) : Option String :=
  if isSvmNetwork network then
    pp.payload.transaction.map (fun tx => "svm:" ++ env.sha256hex tx)
  else if network.facilitator.isSome then none
  else pp.payload.authorization.map (fun a => a.nonce)

def dispatchSettle (env : Env) (pp : PaymentPayload) (enriched : RouteConfig)
    (network : Network) : Except String Settlement :=
  if isSvmNetwork network then settlePaymentSvm env pp enriched network
  else
    match network.facilitator with
    | some fac => settlePaymentViaFacilitator env pp enriched network fac
    | none => settlePaymentEvm env pp

/- Payer identity: the verifier's returned payer, else the signature's
   authorization.from, else the sentinel. -/
def derivedPayer (verification : VerifyResult) (pp : PaymentPayload) : String :=
  ((verification.payer).orElse (fun _ => pp.payload.authorization.map (fun a => a.fromAddr))).getD
    "unknown"

/- Settlement attempt, nonce confirmation or release, receipt header,
   idempotency write and credit-issuance registration. -/
def stageSettle2 (env : Env) (routeKey : String) (routeConfig : RouteConfig)
    (resourceUrl : String) (pp : PaymentPayload) (paymentId : Option String)
    (network : Network) (payerAddress : String) (nonceKey : Option String)
    (st : Store) : PipelineResult :=
  let enriched := { routeConfig with resource := some resourceUrl }
  match dispatchSettle env pp enriched network with
  | .error m =>
    match nonceKey with
    | some nk =>
      { outcome := .respond 402 "Payment settlement failed" (some m), paymentResponse := none,
        creditHeader := false, challenge := none, store := deleteNonce st nk,
        events := [.settleFail m, .nonceDelete nk], creditPlan := none,
        didSettle := false, creditConsumed := false }
    | none =>
      { outcome := .respond 402 "Payment settlement failed" (some m), paymentResponse := none,
        creditHeader := false, challenge := none, store := st,
        events := [.settleFail m], creditPlan := none,
        didSettle := false, creditConsumed := false }
  | .ok settlement =>
    let vmStr := if isSvmNetwork network then "svm" else "evm"
    let confirmed : Store × List Event :=
      match nonceKey with
      | some nk =>
        (setNonceConfirmed env.now st nk
          { txHash := some settlement.txHash, network := settlement.network,
            blockNumber := settlement.blockNumber, payer := settlement.payer.getD payerAddress,
            route := routeKey, vm := vmStr }, [Event.nonceConfirm nk])
      | none => (st, [])
    let prd : PaymentResponseData :=
      { success := true, txHash := settlement.txHash, network := settlement.network,
        blockNumber := settlement.blockNumber, facilitator := settlement.facilitator }
    let header := env.encodeReceipt prd
    let cachedWrite : Store × List Event :=
      match paymentId with
      | some pid =>
        (setIdempotencyCache env.now confirmed.1 pid
          { paymentResponseHeader := some header, settlement := some prd }, [Event.idemWrite pid])
      | none => (confirmed.1, [])
    let plan : Option CreditPlan :=
      if env.creditEnabled && !(payerAddress == "unknown") then
        let cfg := getCreditConfig routeConfig
        if cfg.creditOnStatusCodes.isEmpty then none
        else some { payer := payerAddress, routeKey := routeKey,
                    codes := cfg.creditOnStatusCodes, cap := cfg.maxCreditsPerPayer,
                    ttl := cfg.creditTtl }
      else none
    { outcome := .proceed, paymentResponse := some header, creditHeader := false,
      challenge := none, store := cachedWrite.1,
      events := [Event.settleOk settlement.txHash] ++ confirmed.2 ++ cachedWrite.2,
      creditPlan := plan, didSettle := true, creditConsumed := false }

/- Metadata attached to a pending nonce reservation. -/
def reserveMeta (pp : PaymentPayload) (routeKey payerAddress : String) (network : Network) :
    NonceMeta :=
  { network := pp.network, payer := payerAddress, route := routeKey,
    vm := if isSvmNetwork network then "svm" else "evm" }

/- Settlement gate: skip everything when a credit was consumed, otherwise
   reserve the nonce (when one is derived) before settling. -/
def stageSettle (env : Env) (routeKey : String) (routeConfig : RouteConfig)
    (resourceUrl : String) (pp : PaymentPayload) (paymentId : Option String)
    (network : Network) (payerAddress : String) (creditConsumed : Bool)
    (st : Store) : PipelineResult :=
  if creditConsumed then
    { outcome := .proceed, paymentResponse := none, creditHeader := true, challenge := none,
      store := st, events := [], creditPlan := none, didSettle := false, creditConsumed := true }
  else
    match pipelineNonceKey env pp network with
    | some nk =>
      let reserve := setNoncePending env.now st nk (reserveMeta pp routeKey payerAddress network)
      if reserve.1 then
        prependEvents [.nonceReserve nk true]
          (stageSettle2 env routeKey routeConfig resourceUrl pp paymentId network
            payerAddress (some nk) reserve.2)
      else
        { outcome := .respond 402 "Payment verification failed"
            (some "Nonce already used or settlement in progress"),
          paymentResponse := none, creditHeader := false, challenge := none,
          store := reserve.2, events := [.nonceReserve nk false], creditPlan := none,
          didSettle := false, creditConsumed := false }
    | none =>
      stageSettle2 env routeKey routeConfig resourceUrl pp paymentId network
        payerAddress none st

/- Credit check: read the counter and consume one credit when positive. -/
def stageCredit (env : Env) (routeKey : String) (routeConfig : RouteConfig)
    (resourceUrl : String) (pp : PaymentPayload) (paymentId : Option String)
    (network : Network) (verification : VerifyResult) (st : Store) : PipelineResult :=
  let payerAddress := derivedPayer verification pp
  if env.creditEnabled && !(payerAddress == "unknown") then
    let cfg := getCreditConfig routeConfig
    if cfg.creditOnStatusCodes.isEmpty then
      stageSettle env routeKey routeConfig resourceUrl pp paymentId network payerAddress false st
    else
      let key := creditKey payerAddress routeKey
      let creditCount := getCreditCount st payerAddress routeKey
      if 0 < creditCount then
        let dec := decrementCredit st payerAddress routeKey
        prependEvents [.creditRead key creditCount, .creditConsume key dec.1]
          (stageSettle env routeKey routeConfig resourceUrl pp paymentId network
            payerAddress dec.1 dec.2)
      else
        prependEvents [.creditRead key creditCount]
          (stageSettle env routeKey routeConfig resourceUrl pp paymentId network
            payerAddress false st)
  else
    stageSettle env routeKey routeConfig resourceUrl pp paymentId network payerAddress false st

def stageVerify (env : Env) (routeKey : String) (routeConfig : RouteConfig)
    (resourceUrl : String) (pp : PaymentPayload) (paymentId : Option String)
    (network : Network) (st : Store) : PipelineResult :=
  let enriched := { routeConfig with resource := some resourceUrl }
  match dispatchVerify env st pp routeConfig enriched network with
  | .error _ =>
    { outcome := .serverError, paymentResponse := none, creditHeader := false,
      challenge := none, store := st, events := [], creditPlan := none,
      didSettle := false, creditConsumed := false }
  | .ok v =>
    if v.valid then
      prependEvents [.verify (pathLabel network) true]
        (stageCredit env routeKey routeConfig resourceUrl pp paymentId network v st)
    else
      { outcome := .respond 402 "Payment verification failed" v.reason, paymentResponse := none,
        creditHeader := false, challenge := some (buildPaymentRequired env routeConfig resourceUrl),
        store := st, events := [.verify (pathLabel network) false], creditPlan := none,
        didSettle := false, creditConsumed := false }

def stageNetwork (env : Env) (routeKey : String) (routeConfig : RouteConfig)
    (resourceUrl : String) (pp : PaymentPayload) (paymentId : Option String)
    (st : Store) : PipelineResult :=
  match lookupNetwork env.networkList pp.network with
  | none =>
    { outcome := .respond 402 "Unsupported network"
        (some ("Network " ++ pp.network ++ " is not supported")),
      paymentResponse := none, creditHeader := false, challenge := none, store := st,
      events := [.resolveNetwork pp.network false], creditPlan := none,
      didSettle := false, creditConsumed := false }
  | some network =>
    prependEvents [.resolveNetwork pp.network true]
      (stageVerify env routeKey routeConfig resourceUrl pp paymentId network st)

def stageIdem (env : Env) (routeKey : String) (routeConfig : RouteConfig)
    (resourceUrl : String) (pp : PaymentPayload) (st : Store) : PipelineResult :=
  match extractPaymentIdentifier pp with
  | some paymentId =>
    match getIdempotencyCache st paymentId with
    | some cached =>
      { outcome := .proceed,
        paymentResponse := cached.response.bind (fun c => c.paymentResponseHeader),
        creditHeader := false, challenge := none, store := st,
        events := [.idemLookup paymentId true], creditPlan := none,
        didSettle := false, creditConsumed := false }
    | none =>
      prependEvents [.idemLookup paymentId false]
        (stageNetwork env routeKey routeConfig resourceUrl pp (some paymentId) st)
  | none => stageNetwork env routeKey routeConfig resourceUrl pp none st

def x402PaymentMiddleware (env : Env) (routeKey : String) (req : Request) (st : Store) :
    PipelineResult :=
  match env.routeConfigs routeKey with
  | none =>
    { outcome := .respond 500 ("Unknown route: " ++ routeKey) none, paymentResponse := none,
      creditHeader := false, challenge := none, store := st, events := [],
      creditPlan := none, didSettle := false, creditConsumed := false }
  | some routeConfig =>
    match req.paymentHeader with
    | none =>
      { outcome := .respond 402 "Payment required" none, paymentResponse := none,
        creditHeader := false,
        challenge := some (buildPaymentRequired env routeConfig req.resourceUrl),
        store := st, events := [], creditPlan := none,
        didSettle := false, creditConsumed := false }
    | some paymentHeader =>
      match env.decodeHeader paymentHeader with
      | none =>
        { outcome := .respond 400 "Invalid payment payload encoding" none,
          paymentResponse := none, creditHeader := false, challenge := none, store := st,
          events := [], creditPlan := none, didSettle := false, creditConsumed := false }
      | some paymentPayload =>
        stageIdem env routeKey routeConfig req.resourceUrl paymentPayload st

/- Credit issuance fired on response finish (res.on finish handler). -/
def runFinish (plan : Option CreditPlan) (statusCode : Nat) (st : Store) : Store :=
  match plan with
  | some p =>
    if statusCode ∈ p.codes then (incrementCredit st p.payer p.routeKey p.cap p.ttl).2 else st
  | none => st

/- ── Event classifiers and trace-order combinators ─────────────────── -/

def isIdemLookupE : Event → Bool
  | .idemLookup _ _ => true
  | _ => false

def isIdemHitE : Event → Bool
  | .idemLookup _ true => true
  | _ => false

def isVerifyE : Event → Bool
  | .verify _ _ => true
  | _ => false

def isCreditE : Event → Bool
  | .creditRead _ _ => true
  | .creditConsume _ _ => true
  | _ => false

def isCreditConsumeE : Event → Bool
  | .creditConsume _ _ => true
  | _ => false

def isCreditConsumeTrueE : Event → Bool
  | .creditConsume _ true => true
  | _ => false

def isReserveE : Event → Bool
  | .nonceReserve _ _ => true
  | _ => false

def isSettleOkE : Event → Bool
  | .settleOk _ => true
  | _ => false

def isSettleE : Event → Bool
  | .settleOk _ => true
  | .settleFail _ => true
  | _ => false

def isIdemWriteE : Event → Bool
  | .idemWrite _ => true
  | _ => false

def isConfirmE : Event → Bool
  | .nonceConfirm _ => true
  | _ => false

/- Events of the settlement phase proper (emitted by stageSettle2). -/
def isSettlePhaseE : Event → Bool
  | .settleOk _ => true
  | .settleFail _ => true
  | .nonceConfirm _ => true
  | .nonceDelete _ => true
  | .idemWrite _ => true
  | _ => false

/- noAfter p q l: no q-event occurs strictly after any p-event of l. -/
def noAfter (p q : Event → Bool) : List Event → Bool
  | [] => true
  | e :: rest => (!(p e) || rest.all (fun x => !(q x))) && noAfter p q rest

/- precededBy p q seen l: every q-event of l has an earlier p-event
   (or seen is already true when it occurs). -/
def precededBy (p q : Event → Bool) : Bool → List Event → Bool
  | _, [] => true
  | seen, e :: rest => (!(q e) || seen) && precededBy p q (seen || p e) rest

/- Concrete inputs exercising the nonce-reject branch of the verifier. -/

def c1Net : Network :=
  { vm := "evm", caip2 := "eip155:8453", chainId := some 8453, rpcEnvVar := "BASE_RPC_URL",
    token := { address := "0xU", name := "USD Coin", version := some "2", decimals := 6 },
    facilitator := none }

def c1Networks : String → Option Network :=
  fun n => if n = "eip155:8453" then some c1Net else none

def c1Auth : Authorization :=
  { fromAddr := "0xF", toAddr := "0xP", value := 10000, validAfter := 10,
    validBefore := 2000, nonce := "0xN" }

def c1PP : PaymentPayload :=
  { x402Version := some 2, scheme := "exact", network := "eip155:8453",
    payload := { authorization := some c1Auth, signature := some "0xS",
                 transaction := none, extensions := none },
    extensions := none }

def c1RC : RouteConfig :=
  { priceAtomic := 10000, price := "$0.01", payTo := some "0xP", payToSol := none,
    description := "d", mimeType := "application/json", resource := none,
    creditOnStatusCodes := none, maxCreditsPerPayer := none, creditTtl := none }

def c1Rec : NonceRecord :=
  { status := some "pending", timestamp := 0, network := "eip155:8453", payer := "0xF",
    route := "myapi", vm := "evm", txHash := none, blockNumber := none, ttl := 3600 }

def c1Nonces : String → Option NonceRecord :=
  fun n => if n = "0xN" then some c1Rec else none

def c1Sig : String → Eip712Domain → Authorization → Option String → SigResult :=
  fun _ _ _ _ => SigResult.ok true

def c1Bal : Network → String → Nat → BalanceResult :=
  fun _ _ _ => { sufficient := true, balance := "", required := "" }

def c1Result : VerifyResult :=
  { valid := false, reason := some "Nonce already used (pending)", payer := none }

def isResolveE : Event → Bool
  | .resolveNetwork _ _ => true
  | _ => false

/- The event alphabet of everything the pipeline does after the
   idempotency lookup. -/
def afterIdemE (e : Event) : Bool :=
  isSettlePhaseE e || isReserveE e || isCreditE e || isVerifyE e || isResolveE e

/- ── Interleavings of the two atomic credit scripts (claim C7) ──────── -/

inductive CreditOp where
  | inc (ttl : Nat)
  | dec
deriving DecidableEq

def applyCreditOp (payer route : String) (cap : Nat) (st : Store) : CreditOp → Store
  | .inc ttl => (incrementCredit st payer route cap ttl).2
  | .dec => (decrementCredit st payer route).2

def applyCreditOps (payer route : String) (cap : Nat) : Store → List CreditOp → Store
  | st, [] => st
  | st, op :: ops => applyCreditOps payer route cap (applyCreditOp payer route cap st op) ops

def countOf (entry : Option CreditEntry) : Int :=
  (entry.map (fun e => e.count)).getD 0

/- ── Conclusion predicates for the exactly-once property (claim C4) ── -/

def exactlyOneSettlement (r : PipelineResult) : Prop :=
  r.didSettle = true ∧ r.creditConsumed = false ∧
  r.events.countP isSettleOkE = 1 ∧ r.events.countP isCreditConsumeTrueE = 0 ∧
  r.creditHeader = false ∧ r.paymentResponse.isSome = true

def exactlyOneCredit (r : PipelineResult) : Prop :=
  r.creditConsumed = true ∧ r.didSettle = false ∧
  r.events.countP isCreditConsumeTrueE = 1 ∧ r.events.countP isSettleOkE = 0 ∧
  r.events.countP isReserveE = 0 ∧ r.events.countP isSettleE = 0 ∧
  r.creditHeader = true ∧ r.paymentResponse = none

/- ── Concrete scenarios used to instantiate the theorems ───────────── -/

def emptyStore : Store :=
  { nonces := fun _ => none, idem := fun _ => none, credits := fun _ => none }

def dummyVerify : VerifyResult := { valid := false, reason := none, payer := none }

/- A fully local-EVM environment on a Base-like chain. -/
def hEnv : Env :=
  { networkList := [("eip155:8453", c1Net)],
    routeConfigs := fun k => if k = "myapi" then some c1RC else none,
    envVars := fun v => if v = "BASE_RPC_URL" then some "https://rpc" else none,
    now := 100,
    sigVerify := c1Sig,
    balance := c1Bal,
    svmFeePayer := none,
    svmVerify := fun _ => dummyVerify,
    facilitatorVerify := fun _ => dummyVerify,
    chainSettle := fun _ _ _ => Except.ok { txHash := "0xT", blockNumber := 7 },
    facilitatorSettle := fun _ => Except.error "down",
    svmSettle := fun _ => Except.error "down",
    sha256hex := fun _ => "h",
    creditEnabled := false,
    encodeReceipt := fun _ => "receipt64",
    decodeHeader := fun h => if h = "hdr" then some c1PP else none }

def hReq : Request :=
  { paymentHeader := some "hdr", resourceUrl := "https://g/v1/myapi/x",
    xPayerHeader := none, otherHeaders := [] }

/- The same environment with the credit system enabled, and a store holding
   one credit for the payer recovered from the signature. -/
def crEnv : Env := { hEnv with creditEnabled := true }

def crStore : Store :=
  { nonces := fun _ => none, idem := fun _ => none,
    credits := fun k =>
      if k = "x402:credit:0xf:myapi" then some { count := 1, ttl := 5 } else none }

/- An SVM environment whose transaction hash already has a pending nonce
   record, so the reservation races and loses. -/
def svmNet : Network :=
  { vm := "svm", caip2 := "solana:5e", chainId := none, rpcEnvVar := "SOLANA_RPC_URL",
    token := { address := "EP", name := "USDC", version := none, decimals := 6 },
    facilitator := none }

def svmPP : PaymentPayload :=
  { x402Version := some 2, scheme := "exact", network := "solana:5e",
    payload := { authorization := none, signature := none, transaction := some "blob",
                 extensions := none },
    extensions := none }

def svmRC : RouteConfig := { c1RC with payToSol := some "SolAddr" }

def svmEnv : Env :=
  { hEnv with
    networkList := [("solana:5e", svmNet)],
    routeConfigs := fun k => if k = "myapi" then some svmRC else none,
    svmFeePayer := some "FeeP",
    svmVerify := fun _ => { valid := true, reason := none, payer := some "PayerSol" },
    decodeHeader := fun h => if h = "hdr" then some svmPP else none }

def svmStore : Store :=
  { nonces := fun k => if k = "x402:nonce:svm:h" then some c1Rec else none,
    idem := fun _ => none, credits := fun _ => none }

/- A facilitator-routed EVM environment (MegaETH-like). -/
def facMeridian : Facilitator :=
  { url := "https://f", apiKeyEnv := "MERIDIAN_API_KEY", networkName := some "megaeth",
    facilitatorContract := some "0xFC", x402Version := some 1 }

def facNet : Network :=
  { vm := "evm", caip2 := "eip155:4326", chainId := some 4326,
    rpcEnvVar := "MEGAETH_RPC_URL",
    token := { address := "0xM", name := "MegaUSD", version := some "1", decimals := 18 },
    facilitator := some facMeridian }

def facPP : PaymentPayload :=
  { x402Version := some 2, scheme := "exact", network := "eip155:4326",
    payload := { authorization := none, signature := none, transaction := none,
                 extensions := none },
    extensions := none }

def facEnv : Env :=
  { hEnv with
    networkList := [("eip155:4326", facNet)],
    envVars := fun v => if v = "MERIDIAN_API_KEY" then some "k" else none,
    facilitatorVerify := fun _ => { valid := true, reason := none, payer := some "0xPayer" },
    facilitatorSettle := fun _ => Except.ok { transaction := "0xTX", network := some "megaeth" },
    decodeHeader := fun h => if h = "hdr" then some facPP else none }

/- A route with no EVM payTo configured, for the challenge builder. -/
def c9RC : RouteConfig :=
  { priceAtomic := 10000, price := "$0.01", payTo := none, payToSol := none,
    description := "d", mimeType := "application/json", resource := none,
    creditOnStatusCodes := none, maxCreditsPerPayer := none, creditTtl := none }

def c9Entry : AcceptEntry :=
  { scheme := "exact", network := "eip155:8453", maxAmountRequired := "10000",
    amount := "10000", maxTimeoutSeconds := 3600, resource := "https://r",
    description := "d", mimeType := "application/json", payTo := none, asset := "0xU",
    feePayer := none, extraName := some "USD Coin", extraVersion := some "2" }

def c9SvmEntry : AcceptEntry :=
  { scheme := "exact", network := "solana:5e", maxAmountRequired := "10000",
    amount := "10000", maxTimeoutSeconds := 3600, resource := "https://r",
    description := "d", mimeType := "application/json", payTo := some "SolAddr",
    asset := "EP", feePayer := some "FeeP", extraName := none, extraVersion := none }

/- An envelope whose only meaningful content is a cached payment id. -/
def c10PP : PaymentPayload :=
  { x402Version := none, scheme := "bogus", network := "nochain",
    payload := { authorization := none, signature := none, transaction := none,
                 extensions := some { paymentId := some "abcdefgh12345678" } },
    extensions := none }

def c10Cached : IdemRecord :=
  { timestamp := 3,
    response := some { paymentResponseHeader := some "cachedHdr", settlement := none },
    ttl := 3600 }

def c10Store : Store :=
  { nonces := fun _ => none,
    idem := fun k =>
      if k = "x402:idempotency:abcdefgh12345678" then some c10Cached else none,
    credits := fun _ => none }

def c10Env : Env := { hEnv with decodeHeader := fun h => if h = "hdr" then some c10PP else none }

theorem noAfter_of_all_not_q (p q : Event → Bool) :
    ∀ l : List Event, l.all (fun e => !(q e)) = true → noAfter p q l = true := by
  intro l
  induction l with
  | nil => intro _; rfl
  | cons e rest ih =>
    intro h
    have h1 : (!(q e)) = true ∧ (rest.all fun x => !(q x)) = true := by simpa using h
    simp only [noAfter, Bool.and_eq_true, Bool.or_eq_true]
    exact ⟨Or.inr (by simpa using h1.2), ih (by simpa using h1.2)⟩

theorem noAfter_of_all_not_p (p q : Event → Bool) :
    ∀ l : List Event, l.all (fun e => !(p e)) = true → noAfter p q l = true := by
  intro l
  induction l with
  | nil => intro _; rfl
  | cons e rest ih =>
    intro h
    have h1 : (!(p e)) = true ∧ (rest.all fun x => !(p x)) = true := by simpa using h
    simp only [noAfter, Bool.and_eq_true, Bool.or_eq_true]
    exact ⟨Or.inl h1.1, ih (by simpa using h1.2)⟩

theorem precededBy_mono (p q : Event → Bool) :
    ∀ (l : List Event) (s t : Bool), (s = true → t = true) →
      precededBy p q s l = true → precededBy p q t l = true := by
  intro l
  induction l with
  | nil => intro s t _ _; rfl
  | cons e rest ih =>
    intro s t hst h
    simp only [precededBy, Bool.and_eq_true, Bool.or_eq_true] at h ⊢
    refine ⟨?_, ih (s || p e) (t || p e) ?_ h.2⟩
    · rcases h.1 with h1 | h1
      · exact Or.inl h1
      · exact Or.inr (hst h1)
    · intro hs
      rcases Bool.or_eq_true_iff.mp hs with h2 | h2
      · simp [hst h2]
      · simp [h2]

theorem precededBy_append_no_q (p q : Event → Bool) :
    ∀ (xs : List Event) (ys : List Event) (s : Bool),
      xs.all (fun e => !(q e)) = true → precededBy p q false ys = true →
      precededBy p q s (xs ++ ys) = true := by
  intro xs
  induction xs with
  | nil =>
    intro ys s _ hy
    simpa using precededBy_mono p q ys false s (by simp) hy
  | cons e rest ih =>
    intro ys s hx hy
    have h1 : (!(q e)) = true ∧ (rest.all fun x => !(q x)) = true := by simpa using hx
    simp only [List.cons_append, precededBy, Bool.and_eq_true, Bool.or_eq_true]
    exact ⟨Or.inl h1.1, ih ys (s || p e) (by simpa using h1.2) hy⟩

theorem all_imp (p q : Event → Bool) :
    ∀ l : List Event, l.all p = true → (∀ e, p e = true → q e = true) →
      l.all q = true := by
  intro l
  induction l with
  | nil => intro _ _; rfl
  | cons e rest ih =>
    intro h himp
    have h1 : p e = true ∧ rest.all p = true := by simpa using h
    simp only [List.all_cons, Bool.and_eq_true]
    exact ⟨himp e h1.1, ih h1.2 himp⟩

theorem not_mem_of_all_not (l : List Event) (e : Event) (p : Event → Bool)
    (h : l.all (fun x => !(p x)) = true) (hpe : p e = true) : e ∉ l := by
  intro hmem
  have := List.all_eq_true.mp h e hmem
  simp [hpe] at this

/- Projection lemmas for prependEvents. -/

@[simp] theorem prependEvents_outcome (evs : List Event) (r : PipelineResult) :
    (prependEvents evs r).outcome = r.outcome := rfl

@[simp] theorem prependEvents_paymentResponse (evs : List Event) (r : PipelineResult) :
    (prependEvents evs r).paymentResponse = r.paymentResponse := rfl

@[simp] theorem prependEvents_creditHeader (evs : List Event) (r : PipelineResult) :
    (prependEvents evs r).creditHeader = r.creditHeader := rfl

@[simp] theorem prependEvents_challenge (evs : List Event) (r : PipelineResult) :
    (prependEvents evs r).challenge = r.challenge := rfl

@[simp] theorem prependEvents_store (evs : List Event) (r : PipelineResult) :
    (prependEvents evs r).store = r.store := rfl

@[simp] theorem prependEvents_events (evs : List Event) (r : PipelineResult) :
    (prependEvents evs r).events = evs ++ r.events := rfl

@[simp] theorem prependEvents_creditPlan (evs : List Event) (r : PipelineResult) :
    (prependEvents evs r).creditPlan = r.creditPlan := rfl

@[simp] theorem prependEvents_didSettle (evs : List Event) (r : PipelineResult) :
    (prependEvents evs r).didSettle = r.didSettle := rfl

@[simp] theorem prependEvents_creditConsumed (evs : List Event) (r : PipelineResult) :
    (prependEvents evs r).creditConsumed = r.creditConsumed := rfl

@[simp] theorem setFn_same {α : Type} (f : String → Option α) (k : String) (v : Option α) :
    setFn f k v k = v := by simp [setFn]

theorem setFn_other {α : Type} (f : String → Option α) (k k2 : String) (v : Option α)
    (h : k2 ≠ k) : setFn f k v k2 = f k2 := by simp [setFn, h]

/- ── Characterization of a passing local-EVM verification ──────────── -/

theorem verifyEvm_valid_spec
    (networks : String → Option Network) (now : Nat)
    (sigVerify : String → Eip712Domain → Authorization → Option String → SigResult)
    (balance : Network → String → Nat → BalanceResult)
    (pp : PaymentPayload) (routeConfig : RouteConfig)
    (nonces : String → Option NonceRecord) (r : VerifyResult)
    (hrun : verifyPaymentEvm networks now sigVerify balance pp routeConfig nonces = Except.ok r)
    (hv : r.valid = true) :
    ∃ network authorization payToRaw,
      networks pp.network = some network ∧
      pp.scheme = "exact" ∧
      pp.payload.authorization = some authorization ∧
      routeConfig.payTo = some payToRaw ∧
      requiredAmountCode network.token.decimals routeConfig.priceAtomic ≤ authorization.value ∧
      lowerString authorization.toAddr = lowerString payToRaw ∧
      authorization.validAfter ≤ now ∧ now ≤ authorization.validBefore ∧
      nonces authorization.nonce = none ∧
      sigVerify authorization.fromAddr
        { name := network.token.name, version := network.token.version,
          chainId := network.chainId, verifyingContract := network.token.address }
        authorization pp.payload.signature = SigResult.ok true ∧
      (balance network authorization.fromAddr
        (requiredAmountCode network.token.decimals routeConfig.priceAtomic)).sufficient
        = true := by
  simp only [verifyPaymentEvm] at hrun
  split at hrun
  next hnet => injection hrun with h; rw [← h] at hv; simp at hv
  next network hnet =>
    split at hrun
    next hscheme => injection hrun with h; rw [← h] at hv; simp at hv
    next hscheme =>
      split at hrun
      next hauth => simp at hrun
      next authorization hauth =>
        split at hrun
        next hval => injection hrun with h; rw [← h] at hv; simp at hv
        next hval =>
          split at hrun
          next hpayto => injection hrun with h; rw [← h] at hv; simp at hv
          next payToRaw hpayto =>
            split at hrun
            next hrecip => injection hrun with h; rw [← h] at hv; simp at hv
            next hrecip =>
              split at hrun
              next hafter => injection hrun with h; rw [← h] at hv; simp at hv
              next hafter =>
                split at hrun
                next hbefore => injection hrun with h; rw [← h] at hv; simp at hv
                next hbefore =>
                  split at hrun
                  next existing hnonce =>
                    injection hrun with h; rw [← h] at hv; simp at hv
                  next hnonce =>
                    split at hrun
                    next m hsig => injection hrun with h; rw [← h] at hv; simp at hv
                    next hsig => injection hrun with h; rw [← h] at hv; simp at hv
                    next hsig =>
                      split at hrun
                      next hbal =>
                        exact ⟨network, authorization, payToRaw, hnet,
                          not_not.mp hscheme, hauth, hpayto,
                          Nat.le_of_not_lt hval, not_not.mp hrecip,
                          Nat.le_of_not_lt hafter, Nat.le_of_not_lt hbefore,
                          hnonce, hsig, hbal⟩
                      next hbal =>
                        injection hrun with h; rw [← h] at hv; simp at hv

/-- C1: the local-EVM verifier returns valid only when the authorization
value covers the scaled required amount, the recipient matches the route
payTo case-insensitively, the clock lies inside the validity window, no
record is stored for the authorization nonce (a stored record is rejected
with a reason naming its status), and the EIP-712 signature over the
domain built from the token name, version, chain id and token address
verifies against authorization.from; an envelope whose signature never
recovers to authorization.from is always returned invalid. -/
theorem C1_verify_evm_only_if
    (networks : String → Option Network) (now : Nat)
    (sigVerify : String → Eip712Domain → Authorization → Option String → SigResult)
    (balance : Network → String → Nat → BalanceResult)
    (pp : PaymentPayload) (routeConfig : RouteConfig)
    (nonces : String → Option NonceRecord) (r : VerifyResult)
    (hrun : verifyPaymentEvm networks now sigVerify balance pp routeConfig nonces
      = Except.ok r) :
    (r.valid = true →
      ∃ network authorization,
        networks pp.network = some network ∧
        pp.payload.authorization = some authorization ∧
        requiredAmountCode network.token.decimals routeConfig.priceAtomic
          ≤ authorization.value ∧
        (∃ payToRaw, routeConfig.payTo = some payToRaw ∧
          lowerString authorization.toAddr = lowerString payToRaw) ∧
        authorization.validAfter ≤ now ∧ now ≤ authorization.validBefore ∧
        nonces authorization.nonce = none ∧
        sigVerify authorization.fromAddr
          { name := network.token.name, version := network.token.version,
            chainId := network.chainId, verifyingContract := network.token.address }
          authorization pp.payload.signature = SigResult.ok true) ∧
    (∀ network authorization rec payToRaw,
        networks pp.network = some network →
        pp.scheme = "exact" →
        pp.payload.authorization = some authorization →
        requiredAmountCode network.token.decimals routeConfig.priceAtomic
          ≤ authorization.value →
        routeConfig.payTo = some payToRaw →
        lowerString authorization.toAddr = lowerString payToRaw →
        authorization.validAfter ≤ now → now ≤ authorization.validBefore →
        nonces authorization.nonce = some rec →
        r.valid = false ∧
        r.reason = some ("Nonce already used (" ++ rec.status.getD "unknown" ++ ")")) ∧
    ((∀ a d msg s, sigVerify a d msg s ≠ SigResult.ok true) → r.valid = false) := by
  refine ⟨?_, ?_, ?_⟩
  · intro hv
    obtain ⟨nw, auth, payToRaw, hnet, _, hauth, hpayto, hval, hrecip, hafter, hbefore,
      hnonce, hsig, _⟩ :=
      verifyEvm_valid_spec networks now sigVerify balance pp routeConfig nonces r hrun hv
    exact ⟨nw, auth, hnet, hauth, hval, ⟨payToRaw, hpayto, hrecip⟩, hafter, hbefore,
      hnonce, hsig⟩
  · intro network authorization rec payToRaw hnet hscheme hauth hval hpayto hrecip
      hafter hbefore hnonce
    simp only [verifyPaymentEvm, hnet, hauth, hpayto, hnonce] at hrun
    rw [if_neg (by simp [hscheme])] at hrun
    rw [if_neg (by omega)] at hrun
    rw [if_neg (by simp [hrecip])] at hrun
    rw [if_neg (by omega)] at hrun
    rw [if_neg (by omega)] at hrun
    injection hrun with h
    rw [← h]
    exact ⟨rfl, rfl⟩
  · intro hnosig
    by_contra hvf
    have hv : r.valid = true := by
      cases hvv : r.valid
      · exact absurd hvv hvf
      · rfl
    obtain ⟨nw, auth, payToRaw, _, _, _, _, _, _, _, _, _, hsig, _⟩ :=
      verifyEvm_valid_spec networks now sigVerify balance pp routeConfig nonces r hrun hv
    exact hnosig _ _ _ _ hsig

theorem C1_verify_evm_only_if_witness :
    c1Result.valid = false ∧
    c1Result.reason = some ("Nonce already used (" ++ c1Rec.status.getD "unknown" ++ ")") :=
  (C1_verify_evm_only_if c1Networks 100 c1Sig c1Bal c1PP c1RC c1Nonces c1Result
      (by decide)).2.1
    c1Net c1Auth c1Rec "0xP" (by decide) (by decide) (by decide) (by decide) (by decide)
    (by decide) (by decide) (by decide) (by decide)

/- ── C5: amount scaling ────────────────────────────────────────────── -/

theorem requiredAmountCode_eq (d P : Nat) (hd : 6 ≤ d) :
    requiredAmountCode d P = P * 10 ^ (d - 6) := by
  simp only [requiredAmountCode]
  by_cases h : 6 < d
  · have hpos : (0 : Int) < (d : Int) - 6 := by omega
    rw [if_pos hpos]
    have htn : ((d : Int) - 6).toNat = d - 6 := by omega
    rw [htn]
  · have h6 : d = 6 := by omega
    subst h6
    norm_num

/-- C5: for any route price P in 6-decimal atomic units and any token with
d decimals, d at least 6, the required on-wire amount computed by the
verifier, both external settlement and verification bodies, and every 402
accept entry equals P times 10 to the d minus 6, hence P at d = 6 and P
times 10 to the 12 at d = 18. -/
theorem C5_amount_scaling (d P : Nat) (hd : 6 ≤ d) :
    requiredAmountCode d P = P * 10 ^ (d - 6) ∧
    requiredAmountCode 6 P = P ∧
    requiredAmountCode 18 P = P * 10 ^ 12 ∧
    (∀ pp rc nw fac, (facilitatorBody pp rc nw fac).paymentRequirements.amount =
        toString (requiredAmountCode nw.token.decimals rc.priceAtomic) ∧
      (facilitatorBody pp rc nw fac).paymentRequirements.maxAmountRequired =
        toString (requiredAmountCode nw.token.decimals rc.priceAtomic)) ∧
    (∀ pp rc nw fp payTo, (svmBody pp rc nw fp payTo).requirements.amount =
        toString (requiredAmountCode nw.token.decimals rc.priceAtomic)) ∧
    (∀ rc res fp nw e, acceptFor rc res fp nw = some e →
      e.amount = toString (requiredAmountCode nw.token.decimals rc.priceAtomic) ∧
      e.maxAmountRequired = toString (requiredAmountCode nw.token.decimals rc.priceAtomic)) ∧
    (∀ networks now sv bal pp rc nonces r nw authorization,
      verifyPaymentEvm networks now sv bal pp rc nonces = Except.ok r → r.valid = true →
      networks pp.network = some nw → pp.payload.authorization = some authorization →
      requiredAmountCode nw.token.decimals rc.priceAtomic ≤ authorization.value) := by
  refine ⟨requiredAmountCode_eq d P hd, ?_, ?_, ?_, ?_, ?_, ?_⟩
  · have h := requiredAmountCode_eq 6 P (by norm_num)
    simpa using h
  · have h := requiredAmountCode_eq 18 P (by norm_num)
    simpa using h
  · intro pp rc nw fac
    exact ⟨rfl, rfl⟩
  · intro pp rc nw fp payTo
    rfl
  · intro rc res fp nw e h
    simp only [acceptFor] at h
    split at h
    · split at h
      next payTo feePayer =>
        injection h with h2
        rw [← h2]
        exact ⟨rfl, rfl⟩
      next h3 => simp at h
    · injection h with h2
      rw [← h2]
      exact ⟨rfl, rfl⟩
  · intro networks now sv bal pp rc nonces r nw authorization hrun hv hnet hauth
    obtain ⟨nw2, auth2, payToRaw, hnet2, _, hauth2, _, hval, _⟩ :=
      verifyEvm_valid_spec networks now sv bal pp rc nonces r hrun hv
    rw [hnet] at hnet2
    rw [hauth] at hauth2
    cases hnet2
    cases hauth2
    exact hval

theorem C5_amount_scaling_witness :
    requiredAmountCode 18 10000 = 10000 * 10 ^ (18 - 6) :=
  (C5_amount_scaling 18 10000 (by norm_num)).1

/- ── Additional trace-order lemmas ─────────────────────────────────── -/

theorem noAfter_append_no_p (p q : Event → Bool) :
    ∀ xs ys : List Event, xs.all (fun e => !(p e)) = true → noAfter p q ys = true →
      noAfter p q (xs ++ ys) = true := by
  intro xs
  induction xs with
  | nil => intro ys _ hy; simpa using hy
  | cons e rest ih =>
    intro ys hx hy
    have h1 : (!(p e)) = true ∧ (rest.all fun x => !(p x)) = true := by simpa using hx
    simp only [List.cons_append, noAfter, Bool.and_eq_true, Bool.or_eq_true]
    exact ⟨Or.inl h1.1, ih ys (by simpa using h1.2) hy⟩

theorem noAfter_append (p q : Event → Bool) :
    ∀ xs ys : List Event, noAfter p q xs = true → ys.all (fun e => !(q e)) = true →
      noAfter p q ys = true → noAfter p q (xs ++ ys) = true := by
  intro xs
  induction xs with
  | nil => intro ys _ _ hy; simpa using hy
  | cons e rest ih =>
    intro ys hx hq hy
    simp only [noAfter, Bool.and_eq_true, Bool.or_eq_true] at hx
    simp only [List.cons_append, noAfter, Bool.and_eq_true, Bool.or_eq_true]
    refine ⟨?_, ih ys hx.2 hq hy⟩
    rcases hx.1 with h1 | h1
    · exact Or.inl h1
    · exact Or.inr (by simp_all)

/- ── Event alphabets emitted by each pipeline stage ────────────────── -/

theorem stageSettle2_alphabet (env : Env) (rk : String) (rc : RouteConfig) (ru : String)
    (pp : PaymentPayload) (pid : Option String) (nw : Network) (pa : String)
    (nk : Option String) (st : Store) :
    ((stageSettle2 env rk rc ru pp pid nw pa nk st).events.all isSettlePhaseE) = true := by
  cases hs : dispatchSettle env pp { rc with resource := some ru } nw <;>
    rcases nk with _ | nk2 <;> rcases pid with _ | pid2 <;>
      simp [stageSettle2, hs, isSettlePhaseE]

theorem stageSettle_alphabet (env : Env) (rk : String) (rc : RouteConfig) (ru : String)
    (pp : PaymentPayload) (pid : Option String) (nw : Network) (pa : String)
    (cc : Bool) (st : Store) :
    ((stageSettle env rk rc ru pp pid nw pa cc st).events.all
      (fun e => isSettlePhaseE e || isReserveE e)) = true := by
  simp only [stageSettle]
  split
  · simp
  · split
    next nk2 hk =>
      split
      next hres =>
        rw [prependEvents_events, List.all_append, Bool.and_eq_true]
        refine ⟨by simp [isSettlePhaseE, isReserveE], ?_⟩
        exact all_imp _ _ _ (stageSettle2_alphabet env rk rc ru pp pid nw pa (some nk2) _)
          (fun e he => by simp [he])
      next hres => simp [isSettlePhaseE, isReserveE]
    next hk =>
      exact all_imp _ _ _ (stageSettle2_alphabet env rk rc ru pp pid nw pa none st)
        (fun e he => by simp [he])

theorem stageCredit_alphabet (env : Env) (rk : String) (rc : RouteConfig) (ru : String)
    (pp : PaymentPayload) (pid : Option String) (nw : Network) (v : VerifyResult)
    (st : Store) :
    ((stageCredit env rk rc ru pp pid nw v st).events.all
      (fun e => (isSettlePhaseE e || isReserveE e) || isCreditE e)) = true := by
  simp only [stageCredit]
  split
  · split
    · exact all_imp _ _ _ (stageSettle_alphabet env rk rc ru pp pid nw _ false st)
        (fun e he => by rcases Bool.or_eq_true_iff.mp he with h | h <;> simp [h])
    · split
      · rw [prependEvents_events, List.all_append, Bool.and_eq_true]
        refine ⟨by simp [isCreditE], ?_⟩
        exact all_imp _ _ _ (stageSettle_alphabet env rk rc ru pp pid nw _ _ _)
          (fun e he => by rcases Bool.or_eq_true_iff.mp he with h | h <;> simp [h])
      · rw [prependEvents_events, List.all_append, Bool.and_eq_true]
        refine ⟨by simp [isCreditE], ?_⟩
        exact all_imp _ _ _ (stageSettle_alphabet env rk rc ru pp pid nw _ false st)
          (fun e he => by rcases Bool.or_eq_true_iff.mp he with h | h <;> simp [h])
  · exact all_imp _ _ _ (stageSettle_alphabet env rk rc ru pp pid nw _ false st)
      (fun e he => by rcases Bool.or_eq_true_iff.mp he with h | h <;> simp [h])

theorem stageVerify_alphabet (env : Env) (rk : String) (rc : RouteConfig) (ru : String)
    (pp : PaymentPayload) (pid : Option String) (nw : Network) (st : Store) :
    ((stageVerify env rk rc ru pp pid nw st).events.all
      (fun e => ((isSettlePhaseE e || isReserveE e) || isCreditE e) || isVerifyE e))
      = true := by
  simp only [stageVerify]
  split
  · simp
  · split
    · rw [prependEvents_events, List.all_append, Bool.and_eq_true]
      refine ⟨by simp [isVerifyE], ?_⟩
      exact all_imp _ _ _ (stageCredit_alphabet env rk rc ru pp pid nw _ st)
        (fun e he => by simp [he])
    · simp [isVerifyE]

theorem stageNetwork_alphabet (env : Env) (rk : String) (rc : RouteConfig) (ru : String)
    (pp : PaymentPayload) (pid : Option String) (st : Store) :
    ((stageNetwork env rk rc ru pp pid st).events.all afterIdemE) = true := by
  simp only [stageNetwork]
  split
  · simp [afterIdemE, isResolveE, isSettlePhaseE, isReserveE, isCreditE, isVerifyE]
  · rw [prependEvents_events, List.all_append, Bool.and_eq_true]
    refine
      ⟨by simp [afterIdemE, isResolveE, isSettlePhaseE, isReserveE, isCreditE, isVerifyE], ?_⟩
    exact all_imp _ _ _ (stageVerify_alphabet env rk rc ru pp pid _ st)
      (fun e he => by simp [afterIdemE]; rcases Bool.or_eq_true_iff.mp he with h | h
                      · rcases Bool.or_eq_true_iff.mp h with h2 | h2
                        · rcases Bool.or_eq_true_iff.mp h2 with h3 | h3 <;> simp [h3]
                        · simp [h2]
                      · simp [h])

theorem stageNetwork_no_idemLookup (env : Env) (rk : String) (rc : RouteConfig) (ru : String)
    (pp : PaymentPayload) (pid : Option String) (st : Store) (k : String) (b : Bool) :
    Event.idemLookup k b ∉ (stageNetwork env rk rc ru pp pid st).events := by
  refine not_mem_of_all_not _ _ isIdemLookupE ?_ rfl
  exact all_imp _ _ _ (stageNetwork_alphabet env rk rc ru pp pid st)
    (fun e he => by
      cases e <;> simp_all [afterIdemE, isResolveE, isSettlePhaseE, isReserveE,
        isCreditE, isVerifyE, isIdemLookupE])

/- ── C7: the capped credit counter ─────────────────────────────────── -/

theorem getCreditCount_eq (st : Store) (p r : String) :
    getCreditCount st p r = countOf (st.credits (creditKey p r)) := by
  unfold getCreditCount countOf
  cases st.credits (creditKey p r) <;> simp

theorem dec_script_consumed_iff (e : Option CreditEntry) :
    (decrementCreditScript e).1 = true ↔ 0 < countOf e := by
  cases e with
  | none => simp [decrementCreditScript, countOf]
  | some v =>
    simp only [decrementCreditScript, countOf, Option.map_some, Option.getD_some]
    split <;> simp_all

theorem dec_script_count (e : Option CreditEntry)
    (h : (decrementCreditScript e).1 = true) :
    countOf (decrementCreditScript e).2 = countOf e - 1 := by
  cases e with
  | none => simp [decrementCreditScript, countOf] at h
  | some v =>
    simp only [decrementCreditScript, countOf, Option.map_some, Option.getD_some] at h ⊢
    split at h <;> simp_all

theorem dec_script_noop (e : Option CreditEntry)
    (h : (decrementCreditScript e).1 = false) :
    (decrementCreditScript e).2 = e := by
  cases e with
  | none => simp [decrementCreditScript]
  | some v =>
    by_cases hv : (0 : Int) < v.count
    · simp [decrementCreditScript, hv] at h
    · simp [decrementCreditScript, hv]

theorem inc_script_lt (cap ttl : Nat) (e : Option CreditEntry)
    (h : countOf e < (cap : Int)) :
    countOf (incrementCreditScript cap ttl e).2 = countOf e + 1 := by
  cases e with
  | none =>
    have hcap : (0 : Int) < (cap : Int) := by simpa [countOf] using h
    simp [incrementCreditScript, countOf, hcap]
  | some v =>
    have hv : v.count < (cap : Int) := by simpa [countOf] using h
    simp [incrementCreditScript, countOf, hv]

theorem inc_script_ge (cap ttl : Nat) (e : Option CreditEntry)
    (h : (cap : Int) ≤ countOf e) :
    countOf (incrementCreditScript cap ttl e).2 = countOf e := by
  cases e with
  | none =>
    have hcap : ¬((0 : Int) < (cap : Int)) := by
      have h2 : (cap : Int) ≤ 0 := by simpa [countOf] using h
      omega
    simp [incrementCreditScript, countOf, hcap]
  | some v =>
    have hv : ¬(v.count < (cap : Int)) := by
      have h2 : (cap : Int) ≤ v.count := by simpa [countOf] using h
      omega
    simp [incrementCreditScript, countOf, hv]

theorem inc_script_ttl (cap ttl : Nat) (e : Option CreditEntry) (e2 : CreditEntry)
    (h : (incrementCreditScript cap ttl e).2 = some e2) : e2.ttl = ttl := by
  simp only [incrementCreditScript] at h
  split at h
  · cases e with
    | none => simp at h; subst h; rfl
    | some v => simp at h; subst h; rfl
  · cases e with
    | none => simp at h
    | some v => simp at h; subst h; rfl

theorem applyCreditOp_at_key (p r : String) (cap : Nat) (st : Store) (op : CreditOp) :
    (applyCreditOp p r cap st op).credits (creditKey p r) =
      (match op with
       | .inc ttl => (incrementCreditScript cap ttl (st.credits (creditKey p r))).2
       | .dec => (decrementCreditScript (st.credits (creditKey p r))).2) := by
  cases op <;> simp [applyCreditOp, incrementCredit, decrementCredit, setFn_same]

theorem creditOp_bounds (p r : String) (cap : Nat) (st : Store) (op : CreditOp)
    (h0 : 0 ≤ getCreditCount st p r) (hc : getCreditCount st p r ≤ (cap : Int)) :
    0 ≤ getCreditCount (applyCreditOp p r cap st op) p r ∧
      getCreditCount (applyCreditOp p r cap st op) p r ≤ (cap : Int) := by
  rw [getCreditCount_eq] at h0 hc
  rw [getCreditCount_eq, applyCreditOp_at_key]
  cases op with
  | dec =>
    by_cases hd : (decrementCreditScript (st.credits (creditKey p r))).1 = true
    · have h1 := dec_script_count _ hd
      have h2 := (dec_script_consumed_iff _).mp hd
      simp only []
      rw [h1]
      omega
    · simp only []
      rw [dec_script_noop _ (by simpa using hd)]
      omega
  | inc ttl =>
    by_cases hlt : countOf (st.credits (creditKey p r)) < (cap : Int)
    · simp only []
      rw [inc_script_lt cap ttl _ hlt]
      omega
    · simp only []
      rw [inc_script_ge cap ttl _ (by omega)]
      omega

theorem creditOps_bounds (p r : String) (cap : Nat) (ops : List CreditOp) :
    ∀ st : Store, 0 ≤ getCreditCount st p r → getCreditCount st p r ≤ (cap : Int) →
      0 ≤ getCreditCount (applyCreditOps p r cap st ops) p r ∧
        getCreditCount (applyCreditOps p r cap st ops) p r ≤ (cap : Int) := by
  induction ops with
  | nil => intro st h0 hc; exact ⟨h0, hc⟩
  | cons op ops ih =>
    intro st h0 hc
    have hstep := creditOp_bounds p r cap st op h0 hc
    exact ih _ hstep.1 hstep.2

/-- C7: under any interleaving of the atomic capped increment and the
atomic decrement for one payer and route, a counter starting in the range
zero to cap stays in that range; the decrement consumes exactly when the
counter is positive and lowers it by one, and the increment adds one only
strictly below the cap while setting the stored TTL whenever the key
exists afterwards. -/
theorem C7_credit_counter (payer route : String) (cap : Nat) (ops : List CreditOp)
    (st : Store) (h0 : 0 ≤ getCreditCount st payer route)
    (hc : getCreditCount st payer route ≤ (cap : Int)) :
    (0 ≤ getCreditCount (applyCreditOps payer route cap st ops) payer route ∧
      getCreditCount (applyCreditOps payer route cap st ops) payer route ≤ (cap : Int)) ∧
    (∀ e, ((decrementCreditScript e).1 = true ↔ 0 < countOf e) ∧
      ((decrementCreditScript e).1 = true →
        countOf (decrementCreditScript e).2 = countOf e - 1) ∧
      ((decrementCreditScript e).1 = false → (decrementCreditScript e).2 = e)) ∧
    (∀ e ttl, countOf e < (cap : Int) →
      countOf (incrementCreditScript cap ttl e).2 = countOf e + 1) ∧
    (∀ e ttl, (cap : Int) ≤ countOf e →
      countOf (incrementCreditScript cap ttl e).2 = countOf e) ∧
    (∀ e ttl e2, (incrementCreditScript cap ttl e).2 = some e2 → e2.ttl = ttl) := by
  refine ⟨creditOps_bounds payer route cap ops st h0 hc, ?_, ?_, ?_, ?_⟩
  · intro e
    exact ⟨dec_script_consumed_iff e, dec_script_count e, dec_script_noop e⟩
  · intro e ttl h
    exact inc_script_lt cap ttl e h
  · intro e ttl h
    exact inc_script_ge cap ttl e h
  · intro e ttl e2 h
    exact inc_script_ttl cap ttl e e2 h

theorem C7_credit_counter_witness :
    0 ≤ getCreditCount
        (applyCreditOps "0xF" "myapi" 2 emptyStore
          [CreditOp.inc 9, CreditOp.inc 9, CreditOp.inc 9, CreditOp.dec]) "0xF" "myapi" ∧
    getCreditCount
        (applyCreditOps "0xF" "myapi" 2 emptyStore
          [CreditOp.inc 9, CreditOp.inc 9, CreditOp.inc 9, CreditOp.dec]) "0xF" "myapi"
      ≤ (2 : Int) :=
  (C7_credit_counter "0xF" "myapi" 2 [CreditOp.inc 9, CreditOp.inc 9, CreditOp.inc 9,
    CreditOp.dec] emptyStore (by decide) (by decide)).1

/- ── C2: only-if-absent nonce reservation ──────────────────────────── -/

theorem stageSettle2_no_reserve (env : Env) (rk : String) (rc : RouteConfig) (ru : String)
    (pp : PaymentPayload) (pid : Option String) (nw : Network) (pa : String)
    (nk : Option String) (st : Store) (k : String) (b : Bool) :
    Event.nonceReserve k b ∉ (stageSettle2 env rk rc ru pp pid nw pa nk st).events := by
  refine not_mem_of_all_not _ _ isReserveE ?_ rfl
  exact all_imp _ _ _ (stageSettle2_alphabet env rk rc ru pp pid nw pa nk st)
    (fun e he => by cases e <;> simp_all [isSettlePhaseE, isReserveE])

theorem stageSettle_reserveFalse (env : Env) (rk : String) (rc : RouteConfig) (ru : String)
    (pp : PaymentPayload) (pid : Option String) (nw : Network) (pa : String)
    (cc : Bool) (st : Store) (k : String)
    (h : Event.nonceReserve k false ∈ (stageSettle env rk rc ru pp pid nw pa cc st).events) :
    (stageSettle env rk rc ru pp pid nw pa cc st).outcome =
      Outcome.respond 402 "Payment verification failed"
        (some "Nonce already used or settlement in progress") := by
  revert h
  simp only [stageSettle]
  split
  · intro h; simp at h
  · split
    next nk2 hk =>
      split
      next hres =>
        intro h
        rw [prependEvents_events] at h
        rcases List.mem_append.mp h with h2 | h2
        · simp at h2
        · exact absurd h2 (stageSettle2_no_reserve env rk rc ru pp pid nw pa (some nk2) _ k false)
      next hres => intro h; rfl
    next hk =>
      intro h
      exact absurd h (stageSettle2_no_reserve env rk rc ru pp pid nw pa none st k false)

theorem stageCredit_reserveFalse (env : Env) (rk : String) (rc : RouteConfig) (ru : String)
    (pp : PaymentPayload) (pid : Option String) (nw : Network) (v : VerifyResult)
    (st : Store) (k : String)
    (h : Event.nonceReserve k false ∈ (stageCredit env rk rc ru pp pid nw v st).events) :
    (stageCredit env rk rc ru pp pid nw v st).outcome =
      Outcome.respond 402 "Payment verification failed"
        (some "Nonce already used or settlement in progress") := by
  revert h
  simp only [stageCredit]
  split
  · split
    · intro h
      exact stageSettle_reserveFalse env rk rc ru pp pid nw _ false st k h
    · split
      · intro h
        rw [prependEvents_events] at h
        rw [prependEvents_outcome]
        rcases List.mem_append.mp h with h2 | h2
        · simp at h2
        · exact stageSettle_reserveFalse env rk rc ru pp pid nw _ _ _ k h2
      · intro h
        rw [prependEvents_events] at h
        rw [prependEvents_outcome]
        rcases List.mem_append.mp h with h2 | h2
        · simp at h2
        · exact stageSettle_reserveFalse env rk rc ru pp pid nw _ false st k h2
  · intro h
    exact stageSettle_reserveFalse env rk rc ru pp pid nw _ false st k h

theorem stageVerify_reserveFalse (env : Env) (rk : String) (rc : RouteConfig) (ru : String)
    (pp : PaymentPayload) (pid : Option String) (nw : Network) (st : Store) (k : String)
    (h : Event.nonceReserve k false ∈ (stageVerify env rk rc ru pp pid nw st).events) :
    (stageVerify env rk rc ru pp pid nw st).outcome =
      Outcome.respond 402 "Payment verification failed"
        (some "Nonce already used or settlement in progress") := by
  revert h
  simp only [stageVerify]
  split
  · intro h; simp at h
  · split
    · intro h
      rw [prependEvents_events] at h
      rw [prependEvents_outcome]
      rcases List.mem_append.mp h with h2 | h2
      · simp at h2
      · exact stageCredit_reserveFalse env rk rc ru pp pid nw _ st k h2
    · intro h; simp at h

theorem stageNetwork_reserveFalse (env : Env) (rk : String) (rc : RouteConfig) (ru : String)
    (pp : PaymentPayload) (pid : Option String) (st : Store) (k : String)
    (h : Event.nonceReserve k false ∈ (stageNetwork env rk rc ru pp pid st).events) :
    (stageNetwork env rk rc ru pp pid st).outcome =
      Outcome.respond 402 "Payment verification failed"
        (some "Nonce already used or settlement in progress") := by
  revert h
  simp only [stageNetwork]
  split
  · intro h; simp at h
  · intro h
    rw [prependEvents_events] at h
    rw [prependEvents_outcome]
    rcases List.mem_append.mp h with h2 | h2
    · simp at h2
    · exact stageVerify_reserveFalse env rk rc ru pp pid _ st k h2

/-- C2: setNoncePending is an only-if-absent conditional set writing a
pending record with TTL 3600, returning true exactly when no record
existed; of two reservations of the same key in either interleaving at
most one succeeds, and a failed reservation terminates the pipeline with
a 402 whose reason is the nonce-in-progress message. -/
theorem C2_nonce_reservation :
    (∀ now st k m, ((setNoncePending now st k m).1 = true ↔ getNonce st k = none) ∧
      ((setNoncePending now st k m).1 = true →
        getNonce (setNoncePending now st k m).2 k =
          some { status := some "pending", timestamp := now, network := m.network,
                 payer := m.payer, route := m.route, vm := m.vm,
                 txHash := none, blockNumber := none, ttl := 3600 }) ∧
      ((setNoncePending now st k m).1 = false → (setNoncePending now st k m).2 = st)) ∧
    (∀ now1 now2 st k m1 m2,
      ¬((setNoncePending now1 st k m1).1 = true ∧
        (setNoncePending now2 (setNoncePending now1 st k m1).2 k m2).1 = true)) ∧
    (∀ env rk req st k,
      Event.nonceReserve k false ∈ (x402PaymentMiddleware env rk req st).events →
      (x402PaymentMiddleware env rk req st).outcome =
        Outcome.respond 402 "Payment verification failed"
          (some "Nonce already used or settlement in progress")) := by
  refine ⟨?_, ?_, ?_⟩
  · intro now st k m
    refine ⟨?_, ?_, ?_⟩
    · unfold setNoncePending getNonce
      cases h : st.nonces ("x402:nonce:" ++ k) <;> simp
    · intro h1
      unfold setNoncePending at h1 ⊢
      cases h : st.nonces ("x402:nonce:" ++ k)
      · simp only [h]
        unfold getNonce
        simp [setFn_same]
      · rw [h] at h1; simp at h1
    · intro h1
      unfold setNoncePending at h1 ⊢
      cases h : st.nonces ("x402:nonce:" ++ k)
      · rw [h] at h1; simp at h1
      · simp [h]
  · intro now1 now2 st k m1 m2 hboth
    obtain ⟨h1, h2⟩ := hboth
    unfold setNoncePending at h1 h2
    cases h : st.nonces ("x402:nonce:" ++ k)
    · rw [h] at h1 h2
      simp [setFn_same] at h2
    · rw [h] at h1
      simp at h1
  · intro env rk req st k h
    revert h
    simp only [x402PaymentMiddleware]
    split
    · intro h; simp at h
    · split
      · intro h; simp at h
      · split
        · intro h; simp at h
        · simp only [stageIdem]
          split
          · split
            · intro h; simp at h
            · intro h
              rw [prependEvents_events] at h
              rw [prependEvents_outcome]
              rcases List.mem_append.mp h with h2 | h2
              · simp at h2
              · exact stageNetwork_reserveFalse env rk _ _ _ _ st k h2
          · intro h
            exact stageNetwork_reserveFalse env rk _ _ _ _ st k h

theorem C2_nonce_reservation_witness :
    (x402PaymentMiddleware svmEnv "myapi" hReq svmStore).outcome =
      Outcome.respond 402 "Payment verification failed"
        (some "Nonce already used or settlement in progress") :=
  C2_nonce_reservation.2.2 svmEnv "myapi" hReq svmStore "svm:h" (by decide)

/- ── C9: recipient precedence in the 402 challenge builder ─────────── -/

/-- C9 counterexample: with no EVM payTo configured and a local EVM
network, the builder still emits an accept entry whose payTo is absent,
so entries lacking a recipient are not omitted. -/
theorem C9_counterexample :
    buildPaymentRequired hEnv c9RC "https://r" = [c9Entry] ∧ c9Entry.payTo = none := by
  constructor
  · decide
  · rfl

/-- C9 amended: every emitted SVM accept entry carries the route SVM
payTo and a fee payer, and SVM entries lacking either are omitted; every
emitted EVM entry carries the facilitator recipient contract when the
network has one, otherwise the route EVM payTo, but EVM entries are
emitted even when that recipient is absent. -/
theorem C9_recipient_precedence :
    (∀ rc res fp nw e, nw.vm = "svm" → acceptFor rc res fp nw = some e →
      e.payTo = rc.payToSol ∧ e.payTo.isSome = true ∧ e.feePayer = fp ∧
        fp.isSome = true) ∧
    (∀ rc res fp nw, nw.vm = "svm" → (rc.payToSol = none ∨ fp = none) →
      acceptFor rc res fp nw = none) ∧
    (∀ rc res fp nw e, nw.vm ≠ "svm" → acceptFor rc res fp nw = some e →
      e.payTo = (nw.facilitator.bind (fun f => f.facilitatorContract)).orElse
        (fun _ => rc.payTo)) ∧
    (∀ env rc res, buildPaymentRequired env rc res =
      env.networkList.filterMap (fun p => acceptFor rc res (svmFeePayerOf env) p.2)) := by
  refine ⟨?_, ?_, ?_, ?_⟩
  · intro rc res fp nw e hsvm h
    have hb : isSvmNetwork nw = true := by simp [isSvmNetwork, hsvm]
    simp only [acceptFor] at h
    rw [if_pos hb] at h
    cases hsol : rc.payToSol with
    | none =>
      rw [hsol] at h
      cases fp <;> simp at h
    | some payTo =>
      rw [hsol] at h
      cases hfp : fp with
      | none => rw [hfp] at h; simp at h
      | some feePayer =>
        rw [hfp] at h
        rw [Option.some_inj] at h
        subst h
        exact ⟨rfl, rfl, rfl, rfl⟩
  · intro rc res fp nw hsvm hor
    have hb : isSvmNetwork nw = true := by simp [isSvmNetwork, hsvm]
    simp only [acceptFor]
    rw [if_pos hb]
    rcases hor with h1 | h1
    · rw [h1]
    · rw [h1]
      cases rc.payToSol <;> rfl
  · intro rc res fp nw e hsvm h
    have hb : isSvmNetwork nw = false := by simp [isSvmNetwork, hsvm]
    simp only [acceptFor] at h
    rw [if_neg (by simp [hb])] at h
    rw [Option.some_inj] at h
    subst h
    rfl
  · intro env rc res
    rfl

theorem C9_recipient_precedence_witness :
    c9SvmEntry.payTo = svmRC.payToSol ∧ c9SvmEntry.payTo.isSome = true ∧
    c9SvmEntry.feePayer = some "FeeP" ∧ (some "FeeP" : Option String).isSome = true :=
  C9_recipient_precedence.1 svmRC "https://r" (some "FeeP") svmNet c9SvmEntry
    (by decide) (by decide)

/- ── C10: cached idempotency record short-circuits the pipeline ────── -/

/-- C10: when the envelope decodes, carries a well-formed payment id and
that id has a cached idempotency record, the middleware re-emits the
cached receipt header and proceeds immediately: the only observable event
is the cache hit, so no network resolution, verification, amount check or
settlement happens and the store is untouched. -/
theorem C10_idempotent_shortcircuit (env : Env) (rk : String) (req : Request) (st : Store)
    (rc : RouteConfig) (hdr : String) (pp : PaymentPayload) (pid : String)
    (cached : IdemRecord)
    (hrc : env.routeConfigs rk = some rc)
    (hh : req.paymentHeader = some hdr)
    (hd : env.decodeHeader hdr = some pp)
    (hpid : extractPaymentIdentifier pp = some pid)
    (hc : getIdempotencyCache st pid = some cached) :
    x402PaymentMiddleware env rk req st =
      { outcome := .proceed,
        paymentResponse := cached.response.bind (fun c => c.paymentResponseHeader),
        creditHeader := false, challenge := none, store := st,
        events := [Event.idemLookup pid true], creditPlan := none,
        didSettle := false, creditConsumed := false } := by
  simp only [x402PaymentMiddleware, hrc, hh, hd, stageIdem, hpid, hc]

theorem C10_idempotent_shortcircuit_witness :
    x402PaymentMiddleware c10Env "myapi" hReq c10Store =
      { outcome := .proceed, paymentResponse := some "cachedHdr",
        creditHeader := false, challenge := none, store := c10Store,
        events := [Event.idemLookup "abcdefgh12345678" true], creditPlan := none,
        didSettle := false, creditConsumed := false } :=
  C10_idempotent_shortcircuit c10Env "myapi" hReq c10Store c1RC "hdr" c10PP
    "abcdefgh12345678" c10Cached (by decide) (by decide) (by decide) (by decide) (by decide)

/- ── C6: idempotency ordering ──────────────────────────────────────── -/

theorem stageNetwork_all_not_idem (env : Env) (rk : String) (rc : RouteConfig) (ru : String)
    (pp : PaymentPayload) (pid : Option String) (st : Store) :
    ((stageNetwork env rk rc ru pp pid st).events.all (fun e => !(isIdemLookupE e))) = true :=
  all_imp _ _ _ (stageNetwork_alphabet env rk rc ru pp pid st)
    (fun e he => by
      cases e <;> simp_all [afterIdemE, isResolveE, isSettlePhaseE, isReserveE,
        isCreditE, isVerifyE, isIdemLookupE])

theorem stageSettle2_idemWrite_after (env : Env) (rk : String) (rc : RouteConfig)
    (ru : String) (pp : PaymentPayload) (pid : Option String) (nw : Network) (pa : String)
    (nk : Option String) (st : Store) :
    precededBy isSettleOkE isIdemWriteE false
      (stageSettle2 env rk rc ru pp pid nw pa nk st).events = true := by
  cases hs : dispatchSettle env pp { rc with resource := some ru } nw <;>
    rcases nk with _ | nk2 <;> rcases pid with _ | pid2 <;>
      simp [stageSettle2, hs, precededBy, isSettleOkE, isIdemWriteE]

theorem stageSettle_idemWrite_after (env : Env) (rk : String) (rc : RouteConfig)
    (ru : String) (pp : PaymentPayload) (pid : Option String) (nw : Network) (pa : String)
    (cc : Bool) (st : Store) :
    precededBy isSettleOkE isIdemWriteE false
      (stageSettle env rk rc ru pp pid nw pa cc st).events = true := by
  simp only [stageSettle]
  split
  · simp [precededBy]
  · split
    next nk2 hk =>
      split
      next hres =>
        rw [prependEvents_events]
        exact precededBy_append_no_q _ _ _ _ false (by simp [isIdemWriteE])
          (stageSettle2_idemWrite_after env rk rc ru pp pid nw pa (some nk2) _)
      next hres => simp [precededBy, isIdemWriteE, isSettleOkE]
    next hk => exact stageSettle2_idemWrite_after env rk rc ru pp pid nw pa none st

theorem stageCredit_idemWrite_after (env : Env) (rk : String) (rc : RouteConfig)
    (ru : String) (pp : PaymentPayload) (pid : Option String) (nw : Network)
    (v : VerifyResult) (st : Store) :
    precededBy isSettleOkE isIdemWriteE false
      (stageCredit env rk rc ru pp pid nw v st).events = true := by
  simp only [stageCredit]
  split
  · split
    · exact stageSettle_idemWrite_after env rk rc ru pp pid nw _ false st
    · split
      · rw [prependEvents_events]
        exact precededBy_append_no_q _ _ _ _ false (by simp [isIdemWriteE])
          (stageSettle_idemWrite_after env rk rc ru pp pid nw _ _ _)
      · rw [prependEvents_events]
        exact precededBy_append_no_q _ _ _ _ false (by simp [isIdemWriteE])
          (stageSettle_idemWrite_after env rk rc ru pp pid nw _ false st)
  · exact stageSettle_idemWrite_after env rk rc ru pp pid nw _ false st

theorem stageNetwork_idemWrite_after (env : Env) (rk : String) (rc : RouteConfig)
    (ru : String) (pp : PaymentPayload) (pid : Option String) (st : Store) :
    precededBy isSettleOkE isIdemWriteE false
      (stageNetwork env rk rc ru pp pid st).events = true := by
  simp only [stageNetwork]
  split
  · simp [precededBy, isIdemWriteE, isSettleOkE]
  · rw [prependEvents_events]
    refine precededBy_append_no_q _ _ _ _ false (by simp [isIdemWriteE]) ?_
    simp only [stageVerify]
    split
    · simp [precededBy]
    · split
      · rw [prependEvents_events]
        exact precededBy_append_no_q _ _ _ _ false (by simp [isIdemWriteE])
          (stageCredit_idemWrite_after env rk rc ru pp pid _ _ st)
      · simp [precededBy, isIdemWriteE, isSettleOkE]

/-- C6: the idempotency lookup precedes any verification, an idempotency
record is written only after a successful settlement in the same request,
and a cache hit re-emits the cached receipt header and proceeds with the
lookup as the only observable event. -/
theorem C6_idempotency_ordering (env : Env) (rk : String) (req : Request) (st : Store) :
    noAfter isVerifyE isIdemLookupE (x402PaymentMiddleware env rk req st).events = true ∧
    precededBy isSettleOkE isIdemWriteE false
      (x402PaymentMiddleware env rk req st).events = true ∧
    (∀ pid, Event.idemLookup pid true ∈ (x402PaymentMiddleware env rk req st).events →
      (x402PaymentMiddleware env rk req st).outcome = Outcome.proceed ∧
      (x402PaymentMiddleware env rk req st).events = [Event.idemLookup pid true] ∧
      (x402PaymentMiddleware env rk req st).paymentResponse =
        (getIdempotencyCache st pid).bind (fun rec => rec.response.bind
          (fun c => c.paymentResponseHeader))) := by
  refine ⟨?_, ?_, ?_⟩
  · simp only [x402PaymentMiddleware]
    split
    · simp [noAfter]
    · split
      · simp [noAfter]
      · split
        · simp [noAfter]
        · simp only [stageIdem]
          split
          · split
            · simp [noAfter, isVerifyE]
            · rw [prependEvents_events]
              refine noAfter_append_no_p _ _ _ _ (by simp [isVerifyE]) ?_
              exact noAfter_of_all_not_q _ _ _ (stageNetwork_all_not_idem env rk _ _ _ _ st)
          · exact noAfter_of_all_not_q _ _ _ (stageNetwork_all_not_idem env rk _ _ _ _ st)
  · simp only [x402PaymentMiddleware]
    split
    · simp [precededBy]
    · split
      · simp [precededBy]
      · split
        · simp [precededBy]
        · simp only [stageIdem]
          split
          · split
            · simp [precededBy, isIdemWriteE, isSettleOkE]
            · rw [prependEvents_events]
              exact precededBy_append_no_q _ _ _ _ false (by simp [isIdemWriteE])
                (stageNetwork_idemWrite_after env rk _ _ _ _ st)
          · exact stageNetwork_idemWrite_after env rk _ _ _ _ st
  · intro pid
    simp only [x402PaymentMiddleware]
    split
    · intro h; simp at h
    · split
      · intro h; simp at h
      · split
        · intro h; simp at h
        · simp only [stageIdem]
          split
          next pid0 hpid0 =>
            split
            next cached hc =>
              intro h
              simp only [List.mem_singleton, Event.idemLookup.injEq] at h
              rw [← h.1]
              refine ⟨rfl, rfl, ?_⟩
              rw [← h.1] at hc
              simp [hc]
            next hc =>
              intro h
              rw [prependEvents_events] at h
              rcases List.mem_append.mp h with h2 | h2
              · simp at h2
              · exact absurd h2 (stageNetwork_no_idemLookup env rk _ _ _ _ st pid true)
          next hpid0 =>
            intro h
            exact absurd h (stageNetwork_no_idemLookup env rk _ _ _ _ st pid true)

theorem C6_idempotency_ordering_witness :
    noAfter isVerifyE isIdemLookupE
      (x402PaymentMiddleware hEnv "myapi" hReq emptyStore).events = true ∧
    precededBy isSettleOkE isIdemWriteE false
      (x402PaymentMiddleware hEnv "myapi" hReq emptyStore).events = true :=
  ⟨(C6_idempotency_ordering hEnv "myapi" hReq emptyStore).1,
   (C6_idempotency_ordering hEnv "myapi" hReq emptyStore).2.1⟩

/- ── C4: exactly one settlement or one credit per processed payment ── -/

theorem exactlyOneSettlement_prepend (evs : List Event) (r : PipelineResult)
    (h : exactlyOneSettlement r)
    (h1 : evs.countP isSettleOkE = 0) (h2 : evs.countP isCreditConsumeTrueE = 0) :
    exactlyOneSettlement (prependEvents evs r) := by
  obtain ⟨a, b, c, d, e, f⟩ := h
  exact ⟨a, b, by simp [prependEvents_events, List.countP_append, c, h1],
    by simp [prependEvents_events, List.countP_append, d, h2], e, f⟩

theorem exactlyOneCredit_prepend (evs : List Event) (r : PipelineResult)
    (h : exactlyOneCredit r)
    (h1 : evs.countP isCreditConsumeTrueE = 0) (h2 : evs.countP isSettleOkE = 0)
    (h3 : evs.countP isReserveE = 0) (h4 : evs.countP isSettleE = 0) :
    exactlyOneCredit (prependEvents evs r) := by
  obtain ⟨a, b, c, d, e, f, g, i⟩ := h
  exact ⟨a, b, by simp [prependEvents_events, List.countP_append, c, h1],
    by simp [prependEvents_events, List.countP_append, d, h2],
    by simp [prependEvents_events, List.countP_append, e, h3],
    by simp [prependEvents_events, List.countP_append, f, h4], g, i⟩

theorem stageSettle2_proceed (env : Env) (rk : String) (rc : RouteConfig) (ru : String)
    (pp : PaymentPayload) (pid : Option String) (nw : Network) (pa : String)
    (nk : Option String) (st : Store)
    (h : (stageSettle2 env rk rc ru pp pid nw pa nk st).outcome = Outcome.proceed) :
    exactlyOneSettlement (stageSettle2 env rk rc ru pp pid nw pa nk st) := by
  revert h
  cases hs : dispatchSettle env pp { rc with resource := some ru } nw <;>
    rcases nk with _ | nk2 <;> rcases pid with _ | pid2 <;>
      simp [stageSettle2, hs, exactlyOneSettlement, List.countP_cons, List.countP_nil,
        isSettleOkE, isCreditConsumeTrueE]

theorem stageSettle_proceed (env : Env) (rk : String) (rc : RouteConfig) (ru : String)
    (pp : PaymentPayload) (pid : Option String) (nw : Network) (pa : String)
    (cc : Bool) (st : Store)
    (h : (stageSettle env rk rc ru pp pid nw pa cc st).outcome = Outcome.proceed) :
    (cc = false ∧ exactlyOneSettlement (stageSettle env rk rc ru pp pid nw pa cc st)) ∨
    (cc = true ∧ (stageSettle env rk rc ru pp pid nw pa cc st).creditConsumed = true ∧
      (stageSettle env rk rc ru pp pid nw pa cc st).didSettle = false ∧
      (stageSettle env rk rc ru pp pid nw pa cc st).events = [] ∧
      (stageSettle env rk rc ru pp pid nw pa cc st).creditHeader = true ∧
      (stageSettle env rk rc ru pp pid nw pa cc st).paymentResponse = none) := by
  cases cc with
  | true =>
    right
    refine ⟨rfl, ?_, ?_, ?_, ?_, ?_⟩ <;> simp [stageSettle]
  | false =>
    left
    refine ⟨rfl, ?_⟩
    revert h
    simp only [stageSettle]
    rw [if_neg (by simp)]
    split
    next nk2 hk =>
      split
      next hres =>
        intro h
        have h2 := stageSettle2_proceed env rk rc ru pp pid nw pa (some nk2) _
          (by simpa using h)
        exact exactlyOneSettlement_prepend _ _ h2
          (by simp [List.countP_cons, isSettleOkE])
          (by simp [List.countP_cons, isCreditConsumeTrueE])
      next hres =>
        intro h
        simp at h
    next hk =>
      intro h
      exact stageSettle2_proceed env rk rc ru pp pid nw pa none st h

theorem stageCredit_proceed (env : Env) (rk : String) (rc : RouteConfig) (ru : String)
    (pp : PaymentPayload) (pid : Option String) (nw : Network) (v : VerifyResult)
    (st : Store)
    (h : (stageCredit env rk rc ru pp pid nw v st).outcome = Outcome.proceed) :
    exactlyOneSettlement (stageCredit env rk rc ru pp pid nw v st) ∨
    exactlyOneCredit (stageCredit env rk rc ru pp pid nw v st) := by
  revert h
  simp only [stageCredit]
  split
  · split
    · intro h
      rcases stageSettle_proceed env rk rc ru pp pid nw _ false st h with ⟨_, hs⟩ | ⟨hcc, _⟩
      · exact Or.inl hs
      · exact absurd hcc (by simp)
    · split
      · intro h
        rcases stageSettle_proceed env rk rc ru pp pid nw _ _ _ (by simpa using h) with
          ⟨hcc, hs⟩ | ⟨hcc, hcons, hds, hev, hch, hpr⟩
        · refine Or.inl (exactlyOneSettlement_prepend _ _ hs ?_ ?_)
          · simp [List.countP_cons, isSettleOkE]
          · simp [List.countP_cons, isCreditConsumeTrueE, hcc]
        · refine Or.inr ?_
          rw [hcc] at hcons hds hev hch hpr
          refine ⟨?_, ?_, ?_, ?_, ?_, ?_, ?_, ?_⟩ <;>
            simp [prependEvents_events, List.countP_append, hcc, hcons, hds, hev, hch, hpr,
              List.countP_cons, List.countP_nil, isCreditConsumeTrueE, isSettleOkE,
              isReserveE, isSettleE]
      · intro h
        rcases stageSettle_proceed env rk rc ru pp pid nw _ false st (by simpa using h) with
          ⟨_, hs⟩ | ⟨hcc, _⟩
        · refine Or.inl (exactlyOneSettlement_prepend _ _ hs ?_ ?_)
          · simp [List.countP_cons, isSettleOkE]
          · simp [List.countP_cons, isCreditConsumeTrueE]
        · exact absurd hcc (by simp)
  · intro h
    rcases stageSettle_proceed env rk rc ru pp pid nw _ false st h with ⟨_, hs⟩ | ⟨hcc, _⟩
    · exact Or.inl hs
    · exact absurd hcc (by simp)

theorem stageVerify_proceed (env : Env) (rk : String) (rc : RouteConfig) (ru : String)
    (pp : PaymentPayload) (pid : Option String) (nw : Network) (st : Store)
    (h : (stageVerify env rk rc ru pp pid nw st).outcome = Outcome.proceed) :
    exactlyOneSettlement (stageVerify env rk rc ru pp pid nw st) ∨
    exactlyOneCredit (stageVerify env rk rc ru pp pid nw st) := by
  revert h
  simp only [stageVerify]
  split
  · intro h; simp at h
  · split
    · intro h
      rcases stageCredit_proceed env rk rc ru pp pid nw _ st (by simpa using h) with hs | hc
      · refine Or.inl (exactlyOneSettlement_prepend _ _ hs ?_ ?_) <;>
          simp [List.countP_cons, isSettleOkE, isCreditConsumeTrueE]
      · refine Or.inr (exactlyOneCredit_prepend _ _ hc ?_ ?_ ?_ ?_) <;>
          simp [List.countP_cons, isSettleOkE, isCreditConsumeTrueE, isReserveE, isSettleE]
    · intro h; simp at h

theorem stageNetwork_proceed (env : Env) (rk : String) (rc : RouteConfig) (ru : String)
    (pp : PaymentPayload) (pid : Option String) (st : Store)
    (h : (stageNetwork env rk rc ru pp pid st).outcome = Outcome.proceed) :
    exactlyOneSettlement (stageNetwork env rk rc ru pp pid st) ∨
    exactlyOneCredit (stageNetwork env rk rc ru pp pid st) := by
  revert h
  simp only [stageNetwork]
  split
  · intro h; simp at h
  · intro h
    rcases stageVerify_proceed env rk rc ru pp pid _ st (by simpa using h) with hs | hc
    · refine Or.inl (exactlyOneSettlement_prepend _ _ hs ?_ ?_) <;>
        simp [List.countP_cons, isSettleOkE, isCreditConsumeTrueE]
    · refine Or.inr (exactlyOneCredit_prepend _ _ hc ?_ ?_ ?_ ?_) <;>
        simp [List.countP_cons, isSettleOkE, isCreditConsumeTrueE, isReserveE, isSettleE]

/- Negative alphabet facts used for the trace-order parts of C4 and C3. -/

theorem stageSettle_all_not_consume (env : Env) (rk : String) (rc : RouteConfig)
    (ru : String) (pp : PaymentPayload) (pid : Option String) (nw : Network) (pa : String)
    (cc : Bool) (st : Store) :
    ((stageSettle env rk rc ru pp pid nw pa cc st).events.all
      (fun e => !(isCreditConsumeE e))) = true :=
  all_imp _ _ _ (stageSettle_alphabet env rk rc ru pp pid nw pa cc st)
    (fun e he => by cases e <;> simp_all [isSettlePhaseE, isReserveE, isCreditConsumeE])

theorem stageSettle_all_not_verify (env : Env) (rk : String) (rc : RouteConfig)
    (ru : String) (pp : PaymentPayload) (pid : Option String) (nw : Network) (pa : String)
    (cc : Bool) (st : Store) :
    ((stageSettle env rk rc ru pp pid nw pa cc st).events.all
      (fun e => !(isVerifyE e))) = true :=
  all_imp _ _ _ (stageSettle_alphabet env rk rc ru pp pid nw pa cc st)
    (fun e he => by cases e <;> simp_all [isSettlePhaseE, isReserveE, isVerifyE])

theorem stageSettle2_all_not_consume (env : Env) (rk : String) (rc : RouteConfig)
    (ru : String) (pp : PaymentPayload) (pid : Option String) (nw : Network) (pa : String)
    (nk : Option String) (st : Store) :
    ((stageSettle2 env rk rc ru pp pid nw pa nk st).events.all
      (fun e => !(isCreditConsumeE e))) = true :=
  all_imp _ _ _ (stageSettle2_alphabet env rk rc ru pp pid nw pa nk st)
    (fun e he => by cases e <;> simp_all [isSettlePhaseE, isCreditConsumeE])

theorem stageSettle2_all_not_reserve (env : Env) (rk : String) (rc : RouteConfig)
    (ru : String) (pp : PaymentPayload) (pid : Option String) (nw : Network) (pa : String)
    (nk : Option String) (st : Store) :
    ((stageSettle2 env rk rc ru pp pid nw pa nk st).events.all
      (fun e => !(isReserveE e))) = true :=
  all_imp _ _ _ (stageSettle2_alphabet env rk rc ru pp pid nw pa nk st)
    (fun e he => by cases e <;> simp_all [isSettlePhaseE, isReserveE])

theorem stageCredit_consume_before_verify (env : Env) (rk : String) (rc : RouteConfig)
    (ru : String) (pp : PaymentPayload) (pid : Option String) (nw : Network)
    (v : VerifyResult) (st : Store) :
    noAfter isCreditConsumeE isVerifyE (stageCredit env rk rc ru pp pid nw v st).events
      = true := by
  simp only [stageCredit]
  split
  · split
    · exact noAfter_of_all_not_p _ _ _
        (stageSettle_all_not_consume env rk rc ru pp pid nw _ false st)
    · split
      · rw [prependEvents_events]
        refine noAfter_append _ _ _ _ (by simp [noAfter, isCreditConsumeE, isVerifyE]) ?_ ?_
        · exact stageSettle_all_not_verify env rk rc ru pp pid nw _ _ _
        · exact noAfter_of_all_not_p _ _ _
            (stageSettle_all_not_consume env rk rc ru pp pid nw _ _ _)
      · rw [prependEvents_events]
        refine noAfter_append_no_p _ _ _ _ (by simp [isCreditConsumeE]) ?_
        exact noAfter_of_all_not_p _ _ _
          (stageSettle_all_not_consume env rk rc ru pp pid nw _ false st)
  · exact noAfter_of_all_not_p _ _ _
      (stageSettle_all_not_consume env rk rc ru pp pid nw _ false st)

theorem stageNetwork_consume_before_verify (env : Env) (rk : String) (rc : RouteConfig)
    (ru : String) (pp : PaymentPayload) (pid : Option String) (st : Store) :
    noAfter isCreditConsumeE isVerifyE (stageNetwork env rk rc ru pp pid st).events
      = true := by
  simp only [stageNetwork]
  split
  · simp [noAfter, isCreditConsumeE]
  · rw [prependEvents_events]
    refine noAfter_append_no_p _ _ _ _ (by simp [isCreditConsumeE]) ?_
    simp only [stageVerify]
    split
    · simp [noAfter]
    · split
      · rw [prependEvents_events]
        refine noAfter_append_no_p _ _ _ _ (by simp [isCreditConsumeE]) ?_
        exact stageCredit_consume_before_verify env rk rc ru pp pid _ _ st
      · simp [noAfter, isCreditConsumeE]

theorem stageSettle_reserve_after_consume (env : Env) (rk : String) (rc : RouteConfig)
    (ru : String) (pp : PaymentPayload) (pid : Option String) (nw : Network) (pa : String)
    (cc : Bool) (st : Store) :
    noAfter isReserveE isCreditConsumeE (stageSettle env rk rc ru pp pid nw pa cc st).events
      = true := by
  simp only [stageSettle]
  split
  · simp [noAfter]
  · split
    next nk2 hk =>
      split
      next hres =>
        rw [prependEvents_events]
        refine noAfter_append _ _ _ _ (by simp [noAfter, isReserveE, isCreditConsumeE]) ?_ ?_
        · exact stageSettle2_all_not_consume env rk rc ru pp pid nw _ (some nk2) _
        · exact noAfter_of_all_not_p _ _ _
            (stageSettle2_all_not_reserve env rk rc ru pp pid nw _ (some nk2) _)
      next hres => simp [noAfter, isReserveE, isCreditConsumeE]
    next hk =>
      exact noAfter_of_all_not_p _ _ _
        (stageSettle2_all_not_reserve env rk rc ru pp pid nw _ none st)

theorem stageNetwork_reserve_after_consume (env : Env) (rk : String) (rc : RouteConfig)
    (ru : String) (pp : PaymentPayload) (pid : Option String) (st : Store) :
    noAfter isReserveE isCreditConsumeE (stageNetwork env rk rc ru pp pid st).events
      = true := by
  simp only [stageNetwork]
  split
  · simp [noAfter, isReserveE]
  · rw [prependEvents_events]
    refine noAfter_append_no_p _ _ _ _ (by simp [isReserveE]) ?_
    simp only [stageVerify]
    split
    · simp [noAfter]
    · split
      · rw [prependEvents_events]
        refine noAfter_append_no_p _ _ _ _ (by simp [isReserveE]) ?_
        simp only [stageCredit]
        split
        · split
          · exact stageSettle_reserve_after_consume env rk rc ru pp pid _ _ false st
          · split
            · rw [prependEvents_events]
              refine noAfter_append_no_p _ _ _ _ (by simp [isReserveE]) ?_
              exact stageSettle_reserve_after_consume env rk rc ru pp pid _ _ _ _
            · rw [prependEvents_events]
              refine noAfter_append_no_p _ _ _ _ (by simp [isReserveE]) ?_
              exact stageSettle_reserve_after_consume env rk rc ru pp pid _ _ false st
        · exact stageSettle_reserve_after_consume env rk rc ru pp pid _ _ false st
      · simp [noAfter, isReserveE]

/-- C4: a request that passes the pipeline without an idempotency cache
hit and terminates with a proceed signal performed exactly one on-chain
settlement or consumed exactly one credit, never both and never neither;
credit consumption happens after verification and before any nonce
reservation, and a consumed credit skips reservation and settlement and is
reported via the credit header instead of a settlement receipt. -/
theorem C4_exactly_once (env : Env) (rk : String) (req : Request) (st : Store)
    (hnohit : ∀ pid, Event.idemLookup pid true ∉ (x402PaymentMiddleware env rk req st).events)
    (hp : (x402PaymentMiddleware env rk req st).outcome = Outcome.proceed) :
    (exactlyOneSettlement (x402PaymentMiddleware env rk req st) ∨
      exactlyOneCredit (x402PaymentMiddleware env rk req st)) ∧
    noAfter isCreditConsumeE isVerifyE (x402PaymentMiddleware env rk req st).events = true ∧
    noAfter isReserveE isCreditConsumeE (x402PaymentMiddleware env rk req st).events
      = true := by
  refine ⟨?_, ?_, ?_⟩
  · revert hnohit hp
    simp only [x402PaymentMiddleware]
    split
    · intro _ hp; simp at hp
    · split
      · intro _ hp; simp at hp
      · split
        · intro _ hp; simp at hp
        · simp only [stageIdem]
          split
          next pid0 hpid0 =>
            split
            next cached hc =>
              intro hnohit _
              exact absurd (by simp) (hnohit pid0)
            next hc =>
              intro _ hp
              rcases stageNetwork_proceed env rk _ _ _ _ st (by simpa using hp) with hs | hc2
              · refine Or.inl (exactlyOneSettlement_prepend _ _ hs ?_ ?_) <;>
                  simp [List.countP_cons, isSettleOkE, isCreditConsumeTrueE]
              · refine Or.inr (exactlyOneCredit_prepend _ _ hc2 ?_ ?_ ?_ ?_) <;>
                  simp [List.countP_cons, isSettleOkE, isCreditConsumeTrueE, isReserveE,
                    isSettleE]
          next hpid0 =>
            intro _ hp
            exact stageNetwork_proceed env rk _ _ _ _ st hp
  · simp only [x402PaymentMiddleware]
    split
    · simp [noAfter]
    · split
      · simp [noAfter]
      · split
        · simp [noAfter]
        · simp only [stageIdem]
          split
          · split
            · simp [noAfter, isCreditConsumeE]
            · rw [prependEvents_events]
              refine noAfter_append_no_p _ _ _ _ (by simp [isCreditConsumeE]) ?_
              exact stageNetwork_consume_before_verify env rk _ _ _ _ st
          · exact stageNetwork_consume_before_verify env rk _ _ _ _ st
  · simp only [x402PaymentMiddleware]
    split
    · simp [noAfter]
    · split
      · simp [noAfter]
      · split
        · simp [noAfter]
        · simp only [stageIdem]
          split
          · split
            · simp [noAfter, isReserveE]
            · rw [prependEvents_events]
              refine noAfter_append_no_p _ _ _ _ (by simp [isReserveE]) ?_
              exact stageNetwork_reserve_after_consume env rk _ _ _ _ st
          · exact stageNetwork_reserve_after_consume env rk _ _ _ _ st

theorem C4_exactly_once_witness :
    exactlyOneSettlement (x402PaymentMiddleware hEnv "myapi" hReq emptyStore) ∨
    exactlyOneCredit (x402PaymentMiddleware hEnv "myapi" hReq emptyStore) := by
  have hev : (x402PaymentMiddleware hEnv "myapi" hReq emptyStore).events =
      [Event.resolveNetwork "eip155:8453" true, Event.verify "EVM" true,
       Event.nonceReserve "0xN" true, Event.settleOk "0xT", Event.nonceConfirm "0xN"] := by
    decide
  exact (C4_exactly_once hEnv "myapi" hReq emptyStore
    (by intro pid; rw [hev]; simp) (by decide)).1

/- ── C3: nonce lifecycle around settlement ─────────────────────────── -/

/-- C3 counterexample: on a facilitator-routed network the pipeline
reaches settlement (a settleOk event) without consuming a credit and
without any nonce reservation, so the claimed path VERIFIED then
NONCE_RESERVED then SETTLED does not hold for every settling request. -/
theorem C3_counterexample :
    (x402PaymentMiddleware facEnv "myapi" hReq emptyStore).events =
      [Event.resolveNetwork "eip155:4326" true, Event.verify "facilitator" true,
       Event.settleOk "0xTX"] ∧
    (x402PaymentMiddleware facEnv "myapi" hReq emptyStore).creditConsumed = false ∧
    ((x402PaymentMiddleware facEnv "myapi" hReq emptyStore).events.all
      (fun e => !(isReserveE e))) = true := by
  refine ⟨by decide, by decide, by decide⟩

theorem stageSettle2_settleOk_confirm (env : Env) (rk : String) (rc : RouteConfig)
    (ru : String) (pp : PaymentPayload) (pid : Option String) (nw : Network) (pa : String)
    (k : String) (st : Store) (tx : String)
    (h : Event.settleOk tx ∈ (stageSettle2 env rk rc ru pp pid nw pa (some k) st).events) :
    Event.nonceConfirm k ∈ (stageSettle2 env rk rc ru pp pid nw pa (some k) st).events ∧
    ((getNonce (stageSettle2 env rk rc ru pp pid nw pa (some k) st).store k).map
      (fun rec => rec.status) = some (some "confirmed")) ∧
    ((getNonce (stageSettle2 env rk rc ru pp pid nw pa (some k) st).store k).map
      (fun rec => rec.ttl) = some 604800) := by
  revert h
  cases hs : dispatchSettle env pp { rc with resource := some ru } nw <;>
    rcases pid with _ | pid2 <;>
      simp [stageSettle2, hs, getNonce, setNonceConfirmed, setIdempotencyCache,
        deleteNonce, setFn_same]

theorem stageSettle2_settleFail_release (env : Env) (rk : String) (rc : RouteConfig)
    (ru : String) (pp : PaymentPayload) (pid : Option String) (nw : Network) (pa : String)
    (k : String) (st : Store) (m : String)
    (h : Event.settleFail m ∈ (stageSettle2 env rk rc ru pp pid nw pa (some k) st).events) :
    (stageSettle2 env rk rc ru pp pid nw pa (some k) st).outcome =
      Outcome.respond 402 "Payment settlement failed" (some m) ∧
    Event.nonceDelete k ∈ (stageSettle2 env rk rc ru pp pid nw pa (some k) st).events ∧
    getNonce (stageSettle2 env rk rc ru pp pid nw pa (some k) st).store k = none := by
  revert h
  cases hs : dispatchSettle env pp { rc with resource := some ru } nw <;>
    rcases pid with _ | pid2 <;>
      simp [stageSettle2, hs, getNonce, setNonceConfirmed, setIdempotencyCache,
        deleteNonce, setFn_same]
  all_goals (intro h; rw [h])

theorem stageSettle_c3_ok (env : Env) (rk : String) (rc : RouteConfig) (ru : String)
    (pp : PaymentPayload) (pid : Option String) (nw : Network) (pa : String) (cc : Bool)
    (st : Store) (k : String)
    (hk : pipelineNonceKey env pp nw = some k) (tx : String)
    (h : Event.settleOk tx ∈ (stageSettle env rk rc ru pp pid nw pa cc st).events) :
    Event.nonceReserve k true ∈ (stageSettle env rk rc ru pp pid nw pa cc st).events ∧
    Event.nonceConfirm k ∈ (stageSettle env rk rc ru pp pid nw pa cc st).events ∧
    ((getNonce (stageSettle env rk rc ru pp pid nw pa cc st).store k).map
      (fun rec => rec.status) = some (some "confirmed")) ∧
    ((getNonce (stageSettle env rk rc ru pp pid nw pa cc st).store k).map
      (fun rec => rec.ttl) = some 604800) := by
  revert h
  simp only [stageSettle, hk]
  split
  · intro h; simp at h
  · split
    next hres =>
      intro h
      rw [prependEvents_events] at h
      rcases List.mem_append.mp h with h2 | h2
      · simp at h2
      · have h3 := stageSettle2_settleOk_confirm env rk rc ru pp pid nw pa k _ tx h2
        refine ⟨?_, ?_, h3.2.1, h3.2.2⟩
        · rw [prependEvents_events]
          exact List.mem_append.mpr (Or.inl (by simp))
        · rw [prependEvents_events]
          exact List.mem_append.mpr (Or.inr h3.1)
    next hres =>
      intro h
      simp at h

theorem stageSettle_c3_fail (env : Env) (rk : String) (rc : RouteConfig) (ru : String)
    (pp : PaymentPayload) (pid : Option String) (nw : Network) (pa : String) (cc : Bool)
    (st : Store) (k : String)
    (hk : pipelineNonceKey env pp nw = some k) (m : String)
    (h : Event.settleFail m ∈ (stageSettle env rk rc ru pp pid nw pa cc st).events) :
    Event.nonceReserve k true ∈ (stageSettle env rk rc ru pp pid nw pa cc st).events ∧
    (stageSettle env rk rc ru pp pid nw pa cc st).outcome =
      Outcome.respond 402 "Payment settlement failed" (some m) ∧
    Event.nonceDelete k ∈ (stageSettle env rk rc ru pp pid nw pa cc st).events ∧
    getNonce (stageSettle env rk rc ru pp pid nw pa cc st).store k = none := by
  revert h
  simp only [stageSettle, hk]
  split
  · intro h; simp at h
  · split
    next hres =>
      intro h
      rw [prependEvents_events] at h
      rcases List.mem_append.mp h with h2 | h2
      · simp at h2
      · have h3 := stageSettle2_settleFail_release env rk rc ru pp pid nw pa k _ m h2
        refine ⟨?_, h3.1, ?_, h3.2.2⟩
        · rw [prependEvents_events]
          exact List.mem_append.mpr (Or.inl (by simp))
        · rw [prependEvents_events]
          exact List.mem_append.mpr (Or.inr h3.2.1)
    next hres =>
      intro h
      simp at h

theorem stageCredit_c3_ok (env : Env) (rk : String) (rc : RouteConfig) (ru : String)
    (pp : PaymentPayload) (pid : Option String) (nw : Network) (v : VerifyResult)
    (st : Store) (k : String)
    (hk : pipelineNonceKey env pp nw = some k) (tx : String)
    (h : Event.settleOk tx ∈ (stageCredit env rk rc ru pp pid nw v st).events) :
    Event.nonceReserve k true ∈ (stageCredit env rk rc ru pp pid nw v st).events ∧
    Event.nonceConfirm k ∈ (stageCredit env rk rc ru pp pid nw v st).events ∧
    ((getNonce (stageCredit env rk rc ru pp pid nw v st).store k).map
      (fun rec => rec.status) = some (some "confirmed")) ∧
    ((getNonce (stageCredit env rk rc ru pp pid nw v st).store k).map
      (fun rec => rec.ttl) = some 604800) := by
  revert h
  simp only [stageCredit]
  split
  · split
    · intro h
      exact stageSettle_c3_ok env rk rc ru pp pid nw _ false st k hk tx h
    · split
      · intro h
        rw [prependEvents_events] at h
        rcases List.mem_append.mp h with h2 | h2
        · simp at h2
        · have h3 := stageSettle_c3_ok env rk rc ru pp pid nw _ _ _ k hk tx h2
          refine ⟨?_, ?_, h3.2.2.1, h3.2.2.2⟩
          · rw [prependEvents_events]
            exact List.mem_append.mpr (Or.inr h3.1)
          · rw [prependEvents_events]
            exact List.mem_append.mpr (Or.inr h3.2.1)
      · intro h
        rw [prependEvents_events] at h
        rcases List.mem_append.mp h with h2 | h2
        · simp at h2
        · have h3 := stageSettle_c3_ok env rk rc ru pp pid nw _ false st k hk tx h2
          refine ⟨?_, ?_, h3.2.2.1, h3.2.2.2⟩
          · rw [prependEvents_events]
            exact List.mem_append.mpr (Or.inr h3.1)
          · rw [prependEvents_events]
            exact List.mem_append.mpr (Or.inr h3.2.1)
  · intro h
    exact stageSettle_c3_ok env rk rc ru pp pid nw _ false st k hk tx h

theorem stageCredit_c3_fail (env : Env) (rk : String) (rc : RouteConfig) (ru : String)
    (pp : PaymentPayload) (pid : Option String) (nw : Network) (v : VerifyResult)
    (st : Store) (k : String)
    (hk : pipelineNonceKey env pp nw = some k) (m : String)
    (h : Event.settleFail m ∈ (stageCredit env rk rc ru pp pid nw v st).events) :
    Event.nonceReserve k true ∈ (stageCredit env rk rc ru pp pid nw v st).events ∧
    (stageCredit env rk rc ru pp pid nw v st).outcome =
      Outcome.respond 402 "Payment settlement failed" (some m) ∧
    Event.nonceDelete k ∈ (stageCredit env rk rc ru pp pid nw v st).events ∧
    getNonce (stageCredit env rk rc ru pp pid nw v st).store k = none := by
  revert h
  simp only [stageCredit]
  split
  · split
    · intro h
      exact stageSettle_c3_fail env rk rc ru pp pid nw _ false st k hk m h
    · split
      · intro h
        rw [prependEvents_events] at h
        rcases List.mem_append.mp h with h2 | h2
        · simp at h2
        · have h3 := stageSettle_c3_fail env rk rc ru pp pid nw _ _ _ k hk m h2
          refine ⟨?_, h3.2.1, ?_, h3.2.2.2⟩
          · rw [prependEvents_events]
            exact List.mem_append.mpr (Or.inr h3.1)
          · rw [prependEvents_events]
            exact List.mem_append.mpr (Or.inr h3.2.2.1)
      · intro h
        rw [prependEvents_events] at h
        rcases List.mem_append.mp h with h2 | h2
        · simp at h2
        · have h3 := stageSettle_c3_fail env rk rc ru pp pid nw _ false st k hk m h2
          refine ⟨?_, h3.2.1, ?_, h3.2.2.2⟩
          · rw [prependEvents_events]
            exact List.mem_append.mpr (Or.inr h3.1)
          · rw [prependEvents_events]
            exact List.mem_append.mpr (Or.inr h3.2.2.1)
  · intro h
    exact stageSettle_c3_fail env rk rc ru pp pid nw _ false st k hk m h

theorem stageVerify_c3_ok (env : Env) (rk : String) (rc : RouteConfig) (ru : String)
    (pp : PaymentPayload) (pid : Option String) (nw : Network) (st : Store) (k : String)
    (hk : pipelineNonceKey env pp nw = some k) (tx : String)
    (h : Event.settleOk tx ∈ (stageVerify env rk rc ru pp pid nw st).events) :
    Event.nonceReserve k true ∈ (stageVerify env rk rc ru pp pid nw st).events ∧
    Event.nonceConfirm k ∈ (stageVerify env rk rc ru pp pid nw st).events ∧
    ((getNonce (stageVerify env rk rc ru pp pid nw st).store k).map
      (fun rec => rec.status) = some (some "confirmed")) ∧
    ((getNonce (stageVerify env rk rc ru pp pid nw st).store k).map
      (fun rec => rec.ttl) = some 604800) := by
  revert h
  simp only [stageVerify]
  split
  · intro h; simp at h
  · split
    · intro h
      rw [prependEvents_events] at h
      rcases List.mem_append.mp h with h2 | h2
      · simp at h2
      · have h3 := stageCredit_c3_ok env rk rc ru pp pid nw _ st k hk tx h2
        refine ⟨?_, ?_, h3.2.2.1, h3.2.2.2⟩
        · rw [prependEvents_events]
          exact List.mem_append.mpr (Or.inr h3.1)
        · rw [prependEvents_events]
          exact List.mem_append.mpr (Or.inr h3.2.1)
    · intro h; simp at h

theorem stageVerify_c3_fail (env : Env) (rk : String) (rc : RouteConfig) (ru : String)
    (pp : PaymentPayload) (pid : Option String) (nw : Network) (st : Store) (k : String)
    (hk : pipelineNonceKey env pp nw = some k) (m : String)
    (h : Event.settleFail m ∈ (stageVerify env rk rc ru pp pid nw st).events) :
    Event.nonceReserve k true ∈ (stageVerify env rk rc ru pp pid nw st).events ∧
    (stageVerify env rk rc ru pp pid nw st).outcome =
      Outcome.respond 402 "Payment settlement failed" (some m) ∧
    Event.nonceDelete k ∈ (stageVerify env rk rc ru pp pid nw st).events ∧
    getNonce (stageVerify env rk rc ru pp pid nw st).store k = none := by
  revert h
  simp only [stageVerify]
  split
  · intro h; simp at h
  · split
    · intro h
      rw [prependEvents_events] at h
      rcases List.mem_append.mp h with h2 | h2
      · simp at h2
      · have h3 := stageCredit_c3_fail env rk rc ru pp pid nw _ st k hk m h2
        refine ⟨?_, h3.2.1, ?_, h3.2.2.2⟩
        · rw [prependEvents_events]
          exact List.mem_append.mpr (Or.inr h3.1)
        · rw [prependEvents_events]
          exact List.mem_append.mpr (Or.inr h3.2.2.1)
    · intro h; simp at h

theorem stageNetwork_c3_ok (env : Env) (rk : String) (rc : RouteConfig) (ru : String)
    (pp : PaymentPayload) (pid : Option String) (st : Store) (nw : Network) (k : String)
    (hnw : lookupNetwork env.networkList pp.network = some nw)
    (hk : pipelineNonceKey env pp nw = some k) (tx : String)
    (h : Event.settleOk tx ∈ (stageNetwork env rk rc ru pp pid st).events) :
    Event.nonceReserve k true ∈ (stageNetwork env rk rc ru pp pid st).events ∧
    Event.nonceConfirm k ∈ (stageNetwork env rk rc ru pp pid st).events ∧
    ((getNonce (stageNetwork env rk rc ru pp pid st).store k).map
      (fun rec => rec.status) = some (some "confirmed")) ∧
    ((getNonce (stageNetwork env rk rc ru pp pid st).store k).map
      (fun rec => rec.ttl) = some 604800) := by
  revert h
  simp only [stageNetwork, hnw]
  intro h
  rw [prependEvents_events] at h
  rcases List.mem_append.mp h with h2 | h2
  · simp at h2
  · have h3 := stageVerify_c3_ok env rk rc ru pp pid nw st k hk tx h2
    refine ⟨?_, ?_, h3.2.2.1, h3.2.2.2⟩
    · rw [prependEvents_events]
      exact List.mem_append.mpr (Or.inr h3.1)
    · rw [prependEvents_events]
      exact List.mem_append.mpr (Or.inr h3.2.1)

theorem stageNetwork_c3_fail (env : Env) (rk : String) (rc : RouteConfig) (ru : String)
    (pp : PaymentPayload) (pid : Option String) (st : Store) (nw : Network) (k : String)
    (hnw : lookupNetwork env.networkList pp.network = some nw)
    (hk : pipelineNonceKey env pp nw = some k) (m : String)
    (h : Event.settleFail m ∈ (stageNetwork env rk rc ru pp pid st).events) :
    Event.nonceReserve k true ∈ (stageNetwork env rk rc ru pp pid st).events ∧
    (stageNetwork env rk rc ru pp pid st).outcome =
      Outcome.respond 402 "Payment settlement failed" (some m) ∧
    Event.nonceDelete k ∈ (stageNetwork env rk rc ru pp pid st).events ∧
    getNonce (stageNetwork env rk rc ru pp pid st).store k = none := by
  revert h
  simp only [stageNetwork, hnw]
  intro h
  rw [prependEvents_events] at h
  rcases List.mem_append.mp h with h2 | h2
  · simp at h2
  · have h3 := stageVerify_c3_fail env rk rc ru pp pid nw st k hk m h2
    refine ⟨?_, h3.2.1, ?_, h3.2.2.2⟩
    · rw [prependEvents_events]
      exact List.mem_append.mpr (Or.inr h3.1)
    · rw [prependEvents_events]
      exact List.mem_append.mpr (Or.inr h3.2.2.1)

theorem stageSettle2_c3_order (env : Env) (rk : String) (rc : RouteConfig) (ru : String)
    (pp : PaymentPayload) (pid : Option String) (nw : Network) (pa : String)
    (nk : Option String) (st : Store) :
    noAfter isSettleE isReserveE (stageSettle2 env rk rc ru pp pid nw pa nk st).events
      = true ∧
    precededBy isSettleOkE isConfirmE false
      (stageSettle2 env rk rc ru pp pid nw pa nk st).events = true := by
  refine ⟨noAfter_of_all_not_q _ _ _
    (stageSettle2_all_not_reserve env rk rc ru pp pid nw pa nk st), ?_⟩
  cases hs : dispatchSettle env pp { rc with resource := some ru } nw <;>
    rcases nk with _ | nk2 <;> rcases pid with _ | pid2 <;>
      simp [stageSettle2, hs, precededBy, isSettleOkE, isConfirmE]

theorem stageSettle_c3_order (env : Env) (rk : String) (rc : RouteConfig) (ru : String)
    (pp : PaymentPayload) (pid : Option String) (nw : Network) (pa : String)
    (cc : Bool) (st : Store) :
    noAfter isSettleE isReserveE (stageSettle env rk rc ru pp pid nw pa cc st).events
      = true ∧
    precededBy isSettleOkE isConfirmE false
      (stageSettle env rk rc ru pp pid nw pa cc st).events = true := by
  simp only [stageSettle]
  split
  · exact ⟨rfl, rfl⟩
  · split
    · split
      · rw [prependEvents_events]
        refine ⟨noAfter_append_no_p _ _ _ _ (by simp [isSettleE]) ?_,
          precededBy_append_no_q _ _ _ _ _ (by simp [isConfirmE]) ?_⟩
        · exact (stageSettle2_c3_order env rk rc ru pp pid nw pa _ _).1
        · exact (stageSettle2_c3_order env rk rc ru pp pid nw pa _ _).2
      · exact ⟨by simp [noAfter, isSettleE], by simp [precededBy, isConfirmE]⟩
    · exact stageSettle2_c3_order env rk rc ru pp pid nw pa none st

theorem stageCredit_c3_order (env : Env) (rk : String) (rc : RouteConfig) (ru : String)
    (pp : PaymentPayload) (pid : Option String) (nw : Network) (v : VerifyResult)
    (st : Store) :
    noAfter isSettleE isReserveE (stageCredit env rk rc ru pp pid nw v st).events = true ∧
    precededBy isSettleOkE isConfirmE false
      (stageCredit env rk rc ru pp pid nw v st).events = true := by
  simp only [stageCredit]
  split
  · split
    · exact stageSettle_c3_order env rk rc ru pp pid nw _ false _
    · split
      · rw [prependEvents_events]
        refine ⟨noAfter_append_no_p _ _ _ _ (by simp [isSettleE]) ?_,
          precededBy_append_no_q _ _ _ _ _ (by simp [isConfirmE]) ?_⟩
        · exact (stageSettle_c3_order env rk rc ru pp pid nw _ _ _).1
        · exact (stageSettle_c3_order env rk rc ru pp pid nw _ _ _).2
      · rw [prependEvents_events]
        refine ⟨noAfter_append_no_p _ _ _ _ (by simp [isSettleE]) ?_,
          precededBy_append_no_q _ _ _ _ _ (by simp [isConfirmE]) ?_⟩
        · exact (stageSettle_c3_order env rk rc ru pp pid nw _ false st).1
        · exact (stageSettle_c3_order env rk rc ru pp pid nw _ false st).2
  · exact stageSettle_c3_order env rk rc ru pp pid nw _ false st

theorem stageVerify_c3_order (env : Env) (rk : String) (rc : RouteConfig) (ru : String)
    (pp : PaymentPayload) (pid : Option String) (nw : Network) (st : Store) :
    noAfter isSettleE isReserveE (stageVerify env rk rc ru pp pid nw st).events = true ∧
    precededBy isSettleOkE isConfirmE false
      (stageVerify env rk rc ru pp pid nw st).events = true := by
  simp only [stageVerify]
  split
  · exact ⟨rfl, rfl⟩
  · split
    · rw [prependEvents_events]
      refine ⟨noAfter_append_no_p _ _ _ _ (by simp [isSettleE]) ?_,
        precededBy_append_no_q _ _ _ _ _ (by simp [isConfirmE]) ?_⟩
      · exact (stageCredit_c3_order env rk rc ru pp pid nw _ st).1
      · exact (stageCredit_c3_order env rk rc ru pp pid nw _ st).2
    · exact ⟨by simp [noAfter, isSettleE], by simp [precededBy, isConfirmE]⟩

theorem stageNetwork_c3_order (env : Env) (rk : String) (rc : RouteConfig) (ru : String)
    (pp : PaymentPayload) (pid : Option String) (st : Store) :
    noAfter isSettleE isReserveE (stageNetwork env rk rc ru pp pid st).events = true ∧
    precededBy isSettleOkE isConfirmE false
      (stageNetwork env rk rc ru pp pid st).events = true := by
  simp only [stageNetwork]
  split
  · exact ⟨by simp [noAfter, isSettleE], by simp [precededBy, isConfirmE]⟩
  · rw [prependEvents_events]
    refine ⟨noAfter_append_no_p _ _ _ _ (by simp [isSettleE]) ?_,
      precededBy_append_no_q _ _ _ _ _ (by simp [isConfirmE]) ?_⟩
    · exact (stageVerify_c3_order env rk rc ru pp pid _ st).1
    · exact (stageVerify_c3_order env rk rc ru pp pid _ st).2

theorem stageIdem_c3_order (env : Env) (rk : String) (rc : RouteConfig) (ru : String)
    (pp : PaymentPayload) (st : Store) :
    noAfter isSettleE isReserveE (stageIdem env rk rc ru pp st).events = true ∧
    precededBy isSettleOkE isConfirmE false (stageIdem env rk rc ru pp st).events
      = true := by
  simp only [stageIdem]
  split
  · split
    · exact ⟨by simp [noAfter, isSettleE], by simp [precededBy, isConfirmE]⟩
    · rw [prependEvents_events]
      refine ⟨noAfter_append_no_p _ _ _ _ (by simp [isSettleE]) ?_,
        precededBy_append_no_q _ _ _ _ _ (by simp [isConfirmE]) ?_⟩
      · exact (stageNetwork_c3_order env rk rc ru pp _ st).1
      · exact (stageNetwork_c3_order env rk rc ru pp _ st).2
  · exact stageNetwork_c3_order env rk rc ru pp none st

/-- C3 (amended): for requests that DERIVE a nonce key (local EVM, or SVM
with a transaction blob) the nonce lifecycle holds: when settlement
succeeds the trace shows a successful reservation and a confirmation and
the final store holds the key with status confirmed and TTL 604800; when
settlement fails the trace shows the reservation, the outcome is the 402
carrying the settlement error, the nonce record is deleted; settlement
never precedes reservation and every confirmation follows a settlement
success. Facilitator-routed EVM requests derive no key and settle with no
reservation (C3_counterexample). -/
theorem C3_nonce_lifecycle (env : Env) (rk : String) (req : Request) (st : Store)
    (rc : RouteConfig) (hdr : String) (pp : PaymentPayload) (nw : Network) (k : String)
    (hrc : env.routeConfigs rk = some rc)
    (hh : req.paymentHeader = some hdr)
    (hd : env.decodeHeader hdr = some pp)
    (hnw : lookupNetwork env.networkList pp.network = some nw)
    (hk : pipelineNonceKey env pp nw = some k) :
    (∀ tx, Event.settleOk tx ∈ (x402PaymentMiddleware env rk req st).events →
      Event.nonceReserve k true ∈ (x402PaymentMiddleware env rk req st).events ∧
      Event.nonceConfirm k ∈ (x402PaymentMiddleware env rk req st).events ∧
      ((getNonce (x402PaymentMiddleware env rk req st).store k).map
        (fun rec => rec.status) = some (some "confirmed")) ∧
      ((getNonce (x402PaymentMiddleware env rk req st).store k).map
        (fun rec => rec.ttl) = some 604800)) ∧
    (∀ m, Event.settleFail m ∈ (x402PaymentMiddleware env rk req st).events →
      Event.nonceReserve k true ∈ (x402PaymentMiddleware env rk req st).events ∧
      (x402PaymentMiddleware env rk req st).outcome =
        Outcome.respond 402 "Payment settlement failed" (some m) ∧
      Event.nonceDelete k ∈ (x402PaymentMiddleware env rk req st).events ∧
      getNonce (x402PaymentMiddleware env rk req st).store k = none) ∧
    noAfter isSettleE isReserveE (x402PaymentMiddleware env rk req st).events = true ∧
    precededBy isSettleOkE isConfirmE false
      (x402PaymentMiddleware env rk req st).events = true := by
  have hmw : x402PaymentMiddleware env rk req st =
      stageIdem env rk rc req.resourceUrl pp st := by
    simp only [x402PaymentMiddleware, hrc, hh, hd]
  rw [hmw]
  refine ⟨?_, ?_, (stageIdem_c3_order env rk rc req.resourceUrl pp st).1,
    (stageIdem_c3_order env rk rc req.resourceUrl pp st).2⟩
  · intro tx h
    revert h
    simp only [stageIdem]
    split
    · split
      · intro h; simp at h
      · intro h
        rw [prependEvents_events] at h
        rcases List.mem_append.mp h with h2 | h2
        · simp at h2
        · have h3 := stageNetwork_c3_ok env rk rc req.resourceUrl pp _ _ nw k hnw hk tx h2
          refine ⟨?_, ?_, h3.2.2.1, h3.2.2.2⟩
          · rw [prependEvents_events]
            exact List.mem_append.mpr (Or.inr h3.1)
          · rw [prependEvents_events]
            exact List.mem_append.mpr (Or.inr h3.2.1)
    · intro h
      exact stageNetwork_c3_ok env rk rc req.resourceUrl pp none st nw k hnw hk tx h
  · intro m h
    revert h
    simp only [stageIdem]
    split
    · split
      · intro h; simp at h
      · intro h
        rw [prependEvents_events] at h
        rcases List.mem_append.mp h with h2 | h2
        · simp at h2
        · have h3 := stageNetwork_c3_fail env rk rc req.resourceUrl pp _ _ nw k hnw hk m h2
          refine ⟨?_, h3.2.1, ?_, h3.2.2.2⟩
          · rw [prependEvents_events]
            exact List.mem_append.mpr (Or.inr h3.1)
          · rw [prependEvents_events]
            exact List.mem_append.mpr (Or.inr h3.2.2.1)
    · intro h
      exact stageNetwork_c3_fail env rk rc req.resourceUrl pp none st nw k hnw hk m h

theorem C3_nonce_lifecycle_witness :
    Event.nonceReserve "0xN" true ∈ (x402PaymentMiddleware hEnv "myapi" hReq emptyStore).events ∧
    Event.nonceConfirm "0xN" ∈ (x402PaymentMiddleware hEnv "myapi" hReq emptyStore).events ∧
    ((getNonce (x402PaymentMiddleware hEnv "myapi" hReq emptyStore).store "0xN").map
      (fun rec => rec.status) = some (some "confirmed")) ∧
    ((getNonce (x402PaymentMiddleware hEnv "myapi" hReq emptyStore).store "0xN").map
      (fun rec => rec.ttl) = some 604800) :=
  (C3_nonce_lifecycle hEnv "myapi" hReq emptyStore c1RC "hdr" c1PP c1Net "0xN"
    (by decide) (by decide) (by decide) (by decide) (by decide)).1 "0xT" (by decide)

/- ── C8: payer identity for credit operations ──────────────────────── -/

theorem stageSettle_all_not_credit (env : Env) (rk : String) (rc : RouteConfig)
    (ru : String) (pp : PaymentPayload) (pid : Option String) (nw : Network) (pa : String)
    (cc : Bool) (st : Store) :
    ((stageSettle env rk rc ru pp pid nw pa cc st).events.all
      (fun e => !(isCreditE e))) = true :=
  all_imp _ _ _ (stageSettle_alphabet env rk rc ru pp pid nw pa cc st)
    (fun e he => by cases e <;> simp_all [isSettlePhaseE, isReserveE, isCreditE])

theorem stageSettle2_plan_payer (env : Env) (rk : String) (rc : RouteConfig) (ru : String)
    (pp : PaymentPayload) (pid : Option String) (nw : Network) (pa : String)
    (nk : Option String) (st : Store) (p : CreditPlan)
    (h : (stageSettle2 env rk rc ru pp pid nw pa nk st).creditPlan = some p) :
    p.payer = pa := by
  revert h
  cases hs : dispatchSettle env pp { rc with resource := some ru } nw <;>
    rcases nk with _ | nk2 <;> rcases pid with _ | pid2 <;>
      simp [stageSettle2, hs]
  all_goals (intro _ _ _ h; rw [← h])

theorem stageSettle_plan_payer (env : Env) (rk : String) (rc : RouteConfig) (ru : String)
    (pp : PaymentPayload) (pid : Option String) (nw : Network) (pa : String)
    (cc : Bool) (st : Store) (p : CreditPlan)
    (h : (stageSettle env rk rc ru pp pid nw pa cc st).creditPlan = some p) :
    p.payer = pa := by
  revert h
  simp only [stageSettle]
  split
  · intro h; simp at h
  · split
    · split
      · rw [prependEvents_creditPlan]
        intro h
        exact stageSettle2_plan_payer env rk rc ru pp pid nw pa _ _ p h
      · intro h; simp at h
    · intro h
      exact stageSettle2_plan_payer env rk rc ru pp pid nw pa none st p h

theorem stageCredit_c8 (env : Env) (rk : String) (rc : RouteConfig) (ru : String)
    (pp : PaymentPayload) (pid : Option String) (nw : Network) (v : VerifyResult)
    (st : Store) :
    (∀ key n, Event.creditRead key n ∈ (stageCredit env rk rc ru pp pid nw v st).events →
      key = creditKey (derivedPayer v pp) rk) ∧
    (∀ key b, Event.creditConsume key b ∈ (stageCredit env rk rc ru pp pid nw v st).events →
      key = creditKey (derivedPayer v pp) rk) ∧
    (∀ p, (stageCredit env rk rc ru pp pid nw v st).creditPlan = some p →
      p.payer = derivedPayer v pp) := by
  simp only [stageCredit]
  split
  · split
    · refine ⟨?_, ?_, ?_⟩
      · intro key n h
        exact absurd h (not_mem_of_all_not _ _ isCreditE
          (stageSettle_all_not_credit env rk rc ru pp pid nw _ false st) rfl)
      · intro key b h
        exact absurd h (not_mem_of_all_not _ _ isCreditE
          (stageSettle_all_not_credit env rk rc ru pp pid nw _ false st) rfl)
      · intro p h
        exact stageSettle_plan_payer env rk rc ru pp pid nw _ false st p h
    · split
      · refine ⟨?_, ?_, ?_⟩
        · intro key n h
          rw [prependEvents_events] at h
          rcases List.mem_append.mp h with h2 | h2
          · simp at h2
            exact h2.1
          · exact absurd h2 (not_mem_of_all_not _ _ isCreditE
              (stageSettle_all_not_credit env rk rc ru pp pid nw _ _ _) rfl)
        · intro key b h
          rw [prependEvents_events] at h
          rcases List.mem_append.mp h with h2 | h2
          · simp at h2
            exact h2.1
          · exact absurd h2 (not_mem_of_all_not _ _ isCreditE
              (stageSettle_all_not_credit env rk rc ru pp pid nw _ _ _) rfl)
        · intro p h
          rw [prependEvents_creditPlan] at h
          exact stageSettle_plan_payer env rk rc ru pp pid nw _ _ _ p h
      · refine ⟨?_, ?_, ?_⟩
        · intro key n h
          rw [prependEvents_events] at h
          rcases List.mem_append.mp h with h2 | h2
          · simp at h2
            exact h2.1
          · exact absurd h2 (not_mem_of_all_not _ _ isCreditE
              (stageSettle_all_not_credit env rk rc ru pp pid nw _ false st) rfl)
        · intro key b h
          rw [prependEvents_events] at h
          rcases List.mem_append.mp h with h2 | h2
          · simp at h2
          · exact absurd h2 (not_mem_of_all_not _ _ isCreditE
              (stageSettle_all_not_credit env rk rc ru pp pid nw _ false st) rfl)
        · intro p h
          rw [prependEvents_creditPlan] at h
          exact stageSettle_plan_payer env rk rc ru pp pid nw _ false st p h
  · refine ⟨?_, ?_, ?_⟩
    · intro key n h
      exact absurd h (not_mem_of_all_not _ _ isCreditE
        (stageSettle_all_not_credit env rk rc ru pp pid nw _ false st) rfl)
    · intro key b h
      exact absurd h (not_mem_of_all_not _ _ isCreditE
        (stageSettle_all_not_credit env rk rc ru pp pid nw _ false st) rfl)
    · intro p h
      exact stageSettle_plan_payer env rk rc ru pp pid nw _ false st p h

theorem stageVerify_c8 (env : Env) (rk : String) (rc : RouteConfig) (ru : String)
    (pp : PaymentPayload) (pid : Option String) (nw : Network) (st : Store)
    (v : VerifyResult)
    (hv : dispatchVerify env st pp rc { rc with resource := some ru } nw = Except.ok v) :
    (∀ key n, Event.creditRead key n ∈ (stageVerify env rk rc ru pp pid nw st).events →
      key = creditKey (derivedPayer v pp) rk) ∧
    (∀ key b, Event.creditConsume key b ∈ (stageVerify env rk rc ru pp pid nw st).events →
      key = creditKey (derivedPayer v pp) rk) ∧
    (∀ p, (stageVerify env rk rc ru pp pid nw st).creditPlan = some p →
      p.payer = derivedPayer v pp) := by
  simp only [stageVerify, hv]
  split
  · refine ⟨?_, ?_, ?_⟩
    · intro key n h
      rw [prependEvents_events] at h
      rcases List.mem_append.mp h with h2 | h2
      · simp at h2
      · exact (stageCredit_c8 env rk rc ru pp pid nw v st).1 key n h2
    · intro key b h
      rw [prependEvents_events] at h
      rcases List.mem_append.mp h with h2 | h2
      · simp at h2
      · exact (stageCredit_c8 env rk rc ru pp pid nw v st).2.1 key b h2
    · intro p h
      rw [prependEvents_creditPlan] at h
      exact (stageCredit_c8 env rk rc ru pp pid nw v st).2.2 p h
  · refine ⟨?_, ?_, ?_⟩
    · intro key n h; simp at h
    · intro key b h; simp at h
    · intro p h; simp at h

theorem stageNetwork_c8 (env : Env) (rk : String) (rc : RouteConfig) (ru : String)
    (pp : PaymentPayload) (pid : Option String) (st : Store) (nw : Network)
    (v : VerifyResult)
    (hnw : lookupNetwork env.networkList pp.network = some nw)
    (hv : dispatchVerify env st pp rc { rc with resource := some ru } nw = Except.ok v) :
    (∀ key n, Event.creditRead key n ∈ (stageNetwork env rk rc ru pp pid st).events →
      key = creditKey (derivedPayer v pp) rk) ∧
    (∀ key b, Event.creditConsume key b ∈ (stageNetwork env rk rc ru pp pid st).events →
      key = creditKey (derivedPayer v pp) rk) ∧
    (∀ p, (stageNetwork env rk rc ru pp pid st).creditPlan = some p →
      p.payer = derivedPayer v pp) := by
  simp only [stageNetwork, hnw]
  refine ⟨?_, ?_, ?_⟩
  · intro key n h
    rw [prependEvents_events] at h
    rcases List.mem_append.mp h with h2 | h2
    · simp at h2
    · exact (stageVerify_c8 env rk rc ru pp pid nw st v hv).1 key n h2
  · intro key b h
    rw [prependEvents_events] at h
    rcases List.mem_append.mp h with h2 | h2
    · simp at h2
    · exact (stageVerify_c8 env rk rc ru pp pid nw st v hv).2.1 key b h2
  · intro p h
    rw [prependEvents_creditPlan] at h
    exact (stageVerify_c8 env rk rc ru pp pid nw st v hv).2.2 p h

/-- C8: the pipeline never reads the payer identity from request headers.
Part one: the result is literally invariant under arbitrary changes of the
X-x402-Payer header and all other non-payment headers. Part two: when the
verifier returns v, every credit read and every credit consumption in the
trace operates on the key derived from the verifier payer (or, for local
EVM, from the signed authorization.from, via derivedPayer), and any
registered credit-issuance plan carries that same payer. -/
theorem C8_payer_identity (env : Env) (rk : String) (req : Request) (st : Store)
    (rc : RouteConfig) (hdr : String) (pp : PaymentPayload) (nw : Network)
    (v : VerifyResult)
    (hrc : env.routeConfigs rk = some rc)
    (hh : req.paymentHeader = some hdr)
    (hd : env.decodeHeader hdr = some pp)
    (hnw : lookupNetwork env.networkList pp.network = some nw)
    (hv : dispatchVerify env st pp rc { rc with resource := some req.resourceUrl } nw =
      Except.ok v) :
    (∀ xp1 oh1 xp2 oh2,
      x402PaymentMiddleware env rk
        { req with xPayerHeader := xp1, otherHeaders := oh1 } st =
      x402PaymentMiddleware env rk
        { req with xPayerHeader := xp2, otherHeaders := oh2 } st) ∧
    (∀ key n, Event.creditRead key n ∈ (x402PaymentMiddleware env rk req st).events →
      key = creditKey (derivedPayer v pp) rk) ∧
    (∀ key b, Event.creditConsume key b ∈ (x402PaymentMiddleware env rk req st).events →
      key = creditKey (derivedPayer v pp) rk) ∧
    (∀ p, (x402PaymentMiddleware env rk req st).creditPlan = some p →
      p.payer = derivedPayer v pp) := by
  have hmw : x402PaymentMiddleware env rk req st =
      stageIdem env rk rc req.resourceUrl pp st := by
    simp only [x402PaymentMiddleware, hrc, hh, hd]
  refine ⟨fun xp1 oh1 xp2 oh2 => rfl, ?_, ?_, ?_⟩ <;> rw [hmw]
  · intro key n h
    revert h
    simp only [stageIdem]
    split
    · split
      · intro h; simp at h
      · intro h
        rw [prependEvents_events] at h
        rcases List.mem_append.mp h with h2 | h2
        · simp at h2
        · exact (stageNetwork_c8 env rk rc req.resourceUrl pp _ st nw v hnw hv).1 key n h2
    · intro h
      exact (stageNetwork_c8 env rk rc req.resourceUrl pp none st nw v hnw hv).1 key n h
  · intro key b h
    revert h
    simp only [stageIdem]
    split
    · split
      · intro h; simp at h
      · intro h
        rw [prependEvents_events] at h
        rcases List.mem_append.mp h with h2 | h2
        · simp at h2
        · exact (stageNetwork_c8 env rk rc req.resourceUrl pp _ st nw v hnw hv).2.1 key b h2
    · intro h
      exact (stageNetwork_c8 env rk rc req.resourceUrl pp none st nw v hnw hv).2.1 key b h
  · intro p h
    revert h
    simp only [stageIdem]
    split
    · split
      · intro h; simp at h
      · intro h
        rw [prependEvents_creditPlan] at h
        exact (stageNetwork_c8 env rk rc req.resourceUrl pp _ st nw v hnw hv).2.2 p h
    · intro h
      exact (stageNetwork_c8 env rk rc req.resourceUrl pp none st nw v hnw hv).2.2 p h

theorem C8_payer_identity_witness :
    Event.creditConsume "x402:credit:0xf:myapi" true ∈
      (x402PaymentMiddleware crEnv "myapi" hReq crStore).events ∧
    "x402:credit:0xf:myapi" =
      creditKey (derivedPayer { valid := true, reason := none, payer := none } c1PP)
        "myapi" :=
  ⟨by decide,
    (C8_payer_identity crEnv "myapi" hReq crStore c1RC "hdr" c1PP c1Net
      { valid := true, reason := none, payer := none }
      (by decide) (by decide) (by decide) (by decide) (by decide)).2.2.1
      "x402:credit:0xf:myapi" true (by decide)⟩

end X402
